import Mathlib

/-!
# osdsctl volume: the resource-command contract

A shallow embedding of `osdsctl/cli/volume.go`: the package-level option
variables, the flag registrations of `init`, and the six subcommand handlers
`volumeCreateAction` .. `volumeExtendAction`.

A handler is a value of `Proc Unit`: the ordered trace of calls it makes to its
collaborators (remote client, usage printer, fatal printers, projectors)
together with the way the process ends (normal return, `os.Exit`, or a
run-time panic).
-/

namespace Osdsctl

/-! ## Data model -/

/-- A Go `error` value, represented by its message. -/
abbrev GoError := String

/-- A Go `map[string]string` literal: its entries in the order they are written. -/
abbrev StringMap := List (String × String)

/-- Modelled from the spec: the declaration of `model.VolumeSpec` is not part of
the source file. The fields are the ones the handlers name in their struct
literals and key lists; every default is the Go zero value, so a structure
instance that omits a field reads like the Go composite literal. -/
structure VolumeSpec where
  Id : String := ""
  CreatedAt : String := ""
  UpdatedAt : String := ""
  Name : String := ""
  Description : String := ""
  Size : Int := 0
  AvailabilityZone : String := ""
  Status : String := ""
  PoolId : String := ""
  ProfileId : String := ""
  Metadata : StringMap := []
  GroupId : String := ""
  SnapshotId : String := ""
  SnapshotFromCloud : Bool := false
  MultiAttach : Bool := false
deriving DecidableEq, Repr

/-- Modelled from the spec: `model.ExtendVolumeSpec` (declaration not in the
source file) carries only the new target size. -/
structure ExtendVolumeSpec where
  NewSize : Int := 0
deriving DecidableEq, Repr

/-- The cobra command values of the source: usage line and short help. -/
structure Command where
  Use : String
  Short : String
  Example : String := ""
deriving DecidableEq, Repr

def volumeCommand : Command :=
  { Use := "volume", Short := "manage volumes in the cluster" }

def volumeCreateCommand : Command :=
  { Use := "create <size>", Short := "create a volume in the cluster",
    Example := "osdsctl volume create 1 --name vol-name" }

def volumeShowCommand : Command :=
  { Use := "show <id>", Short := "show a volume in the cluster" }

def volumeListCommand : Command :=
  { Use := "list", Short := "list all volumes in the cluster" }

def volumeDeleteCommand : Command :=
  { Use := "delete <id>", Short := "delete a volume in the cluster" }

def volumeUpdateCommand : Command :=
  { Use := "update <id>", Short := "update a volume in the cluster" }

def volumeExtendCommand : Command :=
  { Use := "extend <id> <new size>", Short := "extend a volume in the cluster" }

/-- The number of positional placeholders `<...>` in a usage line. -/
def declaredArity (c : Command) : Nat :=
  (c.Use.toList.filter (fun ch => ch == '<')).length

/-! ## Package-level option variables -/

/-- The package-level variables the flags are bound to. `poolId` is declared
in another file of the package and bound here by `--pool`. -/
structure Globals where
  profileId : String := ""
  volName : String := ""
  volDesp : String := ""
  volAz : String := ""
  volSnap : String := ""
  volLimit : String := ""
  volOffset : String := ""
  volSortDir : String := ""
  volSortKey : String := ""
  volId : String := ""
  volTenantId : String := ""
  volUserId : String := ""
  volStatus : String := ""
  volPoolId : String := ""
  volProfileId : String := ""
  volGroupId : String := ""
  snapshotFromCloud : Bool := false
  poolId : String := ""
deriving DecidableEq, Repr

/-- Names of the option variables, used as flag targets. -/
inductive Var
  | profileId | volName | volDesp | volAz | volSnap
  | volLimit | volOffset | volSortDir | volSortKey | volId | volTenantId
  | volUserId | volStatus | volPoolId | volProfileId | volGroupId
  | snapshotFromCloud | poolId
deriving DecidableEq, Repr

/-- Go `strconv.ParseBool`, used by boolean flags. -/
def ParseBool (s : String) : Option Bool :=
  if s = "1" ∨ s = "t" ∨ s = "T" ∨ s = "TRUE" ∨ s = "true" ∨ s = "True" then some true
  else if s = "0" ∨ s = "f" ∨ s = "F" ∨ s = "FALSE" ∨ s = "false" ∨ s = "False" then some false
  else none

/-- Store the textual value of a flag into the variable it is bound to. -/
def Globals.set (g : Globals) : Var → String → Option Globals
  | .profileId, s => some { g with profileId := s }
  | .volName, s => some { g with volName := s }
  | .volDesp, s => some { g with volDesp := s }
  | .volAz, s => some { g with volAz := s }
  | .volSnap, s => some { g with volSnap := s }
  | .volLimit, s => some { g with volLimit := s }
  | .volOffset, s => some { g with volOffset := s }
  | .volSortDir, s => some { g with volSortDir := s }
  | .volSortKey, s => some { g with volSortKey := s }
  | .volId, s => some { g with volId := s }
  | .volTenantId, s => some { g with volTenantId := s }
  | .volUserId, s => some { g with volUserId := s }
  | .volStatus, s => some { g with volStatus := s }
  | .volPoolId, s => some { g with volPoolId := s }
  | .volProfileId, s => some { g with volProfileId := s }
  | .volGroupId, s => some { g with volGroupId := s }
  | .poolId, s => some { g with poolId := s }
  | .snapshotFromCloud, s =>
      match ParseBool s with
      | some b => some { g with snapshotFromCloud := b }
      | none => none

/-- One `StringVarP` / `BoolVarP` registration: long name, shorthand, target
variable and default value (as text). -/
structure Flag where
  name : String
  shorthand : String
  var : Var
  defVal : String
deriving DecidableEq, Repr

/-- Flags registered on `volumeListCommand` (source order). -/
def volumeListFlags : List Flag :=
  [ ⟨"limit", "", .volLimit, "50"⟩,
    ⟨"offset", "", .volOffset, "0"⟩,
    ⟨"sortDir", "", .volSortDir, "desc"⟩,
    ⟨"sortKey", "", .volSortKey, "id"⟩,
    ⟨"id", "", .volId, ""⟩,
    ⟨"name", "", .volName, ""⟩,
    ⟨"description", "", .volDesp, ""⟩,
    ⟨"tenantId", "", .volTenantId, ""⟩,
    ⟨"userId", "", .volUserId, ""⟩,
    ⟨"status", "", .volStatus, ""⟩,
    ⟨"poolId", "", .volPoolId, ""⟩,
    ⟨"availabilityZone", "", .volAz, ""⟩,
    ⟨"profileId", "", .volProfileId, ""⟩,
    ⟨"groupId", "", .volGroupId, ""⟩ ]

/-- Persistent flags of the parent `volumeCommand`, inherited by every subcommand. -/
def volumePersistentFlags : List Flag :=
  [ ⟨"profile", "p", .profileId, ""⟩ ]

/-- Flags registered on `volumeCreateCommand` (source order). -/
def volumeCreateFlags : List Flag :=
  [ ⟨"name", "n", .volName, ""⟩,
    ⟨"description", "d", .volDesp, ""⟩,
    ⟨"az", "a", .volAz, ""⟩,
    ⟨"snapshot", "s", .volSnap, ""⟩,
    ⟨"pool", "l", .poolId, ""⟩,
    ⟨"snapshotFromCloud", "c", .snapshotFromCloud, "false"⟩ ]

/-- Flags registered on `volumeUpdateCommand` (source order). -/
def volumeUpdateFlags : List Flag :=
  [ ⟨"name", "n", .volName, ""⟩,
    ⟨"description", "d", .volDesp, ""⟩ ]

/-- Registering a flag writes its default into the bound variable. -/
def register (g : Globals) (f : Flag) : Globals :=
  (g.set f.var f.defVal).getD g

/-- The package `init`: starting from the Go zero values, the registrations
in source order. -/
def init : Globals :=
  (volumeListFlags ++ volumePersistentFlags ++ volumeCreateFlags ++ volumeUpdateFlags).foldl
    register {}

/-- The six subcommands added to `volumeCommand` that this file implements. -/
inductive Subcommand
  | create | show | list | delete | update | extend
deriving DecidableEq, Repr

/-- The command value of a subcommand. -/
def Subcommand.command : Subcommand → Command
  | .create => volumeCreateCommand
  | .show => volumeShowCommand
  | .list => volumeListCommand
  | .delete => volumeDeleteCommand
  | .update => volumeUpdateCommand
  | .extend => volumeExtendCommand

/-- The flag set visible to a subcommand: its local flags and the inherited
persistent flags of `volumeCommand`. -/
def Subcommand.flags : Subcommand → List Flag
  | .create => volumeCreateFlags ++ volumePersistentFlags
  | .list => volumeListFlags ++ volumePersistentFlags
  | .update => volumeUpdateFlags ++ volumePersistentFlags
  | .show => volumePersistentFlags
  | .delete => volumePersistentFlags
  | .extend => volumePersistentFlags

/-- Apply the flags supplied on the command line (long name, value), left to
right; an unknown flag or a malformed boolean is a parse failure. -/
def parseFlags (cmd : Subcommand) : List (String × String) → Globals → Option Globals
  | [], g => some g
  | (n, v) :: rest, g =>
      match cmd.flags.find? (fun f => f.name == n) with
      | none => none
      | some f =>
          match g.set f.var v with
          | none => none
          | some g1 => parseFlags cmd rest g1

/-- The option values a handler sees for an invocation of `cmd` with the
given flags. -/
def boundOptions (cmd : Subcommand) (supplied : List (String × String)) : Option Globals :=
  parseFlags cmd supplied init

/-! ## Integer parsing -/

/-- The value of a decimal digit, `none` for any other character. -/
def digitVal (c : Char) : Option Nat :=
  if '0' ≤ c ∧ c ≤ '9' then some (c.toNat - '0'.toNat) else none

/-- Accumulate a run of decimal digits; `none` as soon as a non-digit appears. -/
def parseDigits : List Char → Nat → Option Nat
  | [], acc => some acc
  | c :: cs, acc =>
      match digitVal c with
      | none => none
      | some d => parseDigits cs (acc * 10 + d)

/-- Largest value of Go `int` on a 64-bit platform. -/
def maxInt : Int := 9223372036854775807

/-- Smallest value of Go `int` on a 64-bit platform. -/
def minInt : Int := -9223372036854775808

/-- The two failure causes of Go `strconv`: `ErrSyntax` and `ErrRange`. -/
inductive ConvErr
  | ErrSyntax
  | ErrRange
deriving DecidableEq, Repr

/-- Go `*strconv.NumError`: the failing function, the input text and the cause. -/
structure NumError where
  Func : String
  Num : String
  Err : ConvErr
deriving DecidableEq, Repr

/-- The range check of `strconv.Atoi`: the parsed value must fit Go `int`. -/
def inRange (s : String) (v : Int) : Except NumError Int :=
  if v < minInt ∨ maxInt < v then
    .error { Func := "Atoi", Num := s, Err := .ErrRange }
  else .ok v

/-- The digits of the numeral: at least one, all decimal. -/
def digits (ds : List Char) : Option Nat :=
  if ds.isEmpty then none else parseDigits ds 0

/-- Apply the sign to the magnitude and check the range; no magnitude is a
format error. -/
def signedValue (s : String) (neg : Bool) : Option Nat → Except NumError Int
  | none => .error { Func := "Atoi", Num := s, Err := .ErrSyntax }
  | some n => inRange s (if neg then -(n : Int) else (n : Int))

/-- Go `strconv.Atoi` (64-bit `int`): an optional sign followed by one or more
decimal digits, with a range check; anything else is an error. -/
def Atoi (s : String) : Except NumError Int :=
  let cs := s.toList
  let signed := cs.head? == some '-' || cs.head? == some '+'
  signedValue s (cs.head? == some '-') (digits (if signed then cs.tail else cs))

/-- The Go conversion `int64(x)`: two-s complement wrap-around to 64 bits. -/
def int64 (x : Int) : Int :=
  (x + 9223372036854775808) % 18446744073709551616 - 9223372036854775808

/-! ## Processes: collaborator calls and termination -/

/-- An ordered list of field names handed to a projector. -/
abbrev KeyList := List String

/-- The field formatters known to the rendering engine. -/
inductive Formatter
  | JsonFormatter
deriving DecidableEq, Repr

/-- Go `FormatterList`: field name to formatter. -/
abbrev FormatterList := List (String × Formatter)

/-- A call on the remote resource client, with its arguments. -/
inductive RemoteCall
  | CreateVolume (vol : VolumeSpec)
  | GetVolume (id : String)
  | ListVolumes (opts : StringMap)
  | DeleteVolume (id : String) (vol : VolumeSpec)
  | UpdateVolume (id : String) (vol : VolumeSpec)
  | ExtendVolume (id : String) (body : ExtendVolumeSpec)
deriving DecidableEq, Repr

/-- An operand of a Go format string. -/
inductive FmtArg
  | str (s : String)
  | numError (e : NumError)
deriving DecidableEq, Repr

/-- The arguments of a `Printf`-style call: the format string and its
operands, unformatted. -/
structure Printf where
  format : String
  args : List FmtArg
deriving DecidableEq, Repr

/-- Everything a handler does that is visible outside it. -/
inductive Event
  | remote (call : RemoteCall)
  | usage (cmd : Command)
  | fatalln (msg : String)
  | logFatalf (msg : Printf)
  | printDict (dict : Option VolumeSpec) (keys : KeyList) (formatters : FormatterList)
  | printList (list : List VolumeSpec) (keys : KeyList) (formatters : FormatterList)
deriving DecidableEq, Repr

/-- How a process stops before returning. -/
inductive Halt
  | exit (code : Int)
  | indexOutOfRange
deriving DecidableEq, Repr

/-- A terminated computation: the events it produced, in order, and either the
value it returned or the reason it halted. -/
structure Proc (α : Type) where
  trace : List Event
  result : Except Halt α

/-- Sequencing: the continuation runs only if the first part returned. -/
def Proc.bind {α β : Type} (m : Proc α) (f : α → Proc β) : Proc β :=
  match m.result with
  | .error h => ⟨m.trace, .error h⟩
  | .ok a => ⟨m.trace ++ (f a).trace, (f a).result⟩

instance : Monad Proc where
  pure a := ⟨[], .ok a⟩
  bind := Proc.bind

/-- Emit one event and return. -/
def emit (e : Event) : Proc Unit := ⟨[e], .ok ()⟩

/-- Emit one event and terminate the process with the given status. -/
def exitWith {α : Type} (e : Event) (code : Int) : Proc α := ⟨[e], .error (.exit code)⟩

/-- The Go index expression `args[i]`: a run-time panic when out of range. -/
def index (args : List String) (i : Nat) : Proc String :=
  match args.get? i with
  | some a => ⟨[], .ok a⟩
  | none => ⟨[], .error .indexOutOfRange⟩

/-- The remote calls among the events of a trace, in order. -/
def remoteCalls : List Event → List RemoteCall
  | [] => []
  | .remote c :: es => c :: remoteCalls es
  | _ :: es => remoteCalls es

/-- The projector invocations (`PrintDict` / `PrintList`) among the events. -/
def projections : List Event → List Event
  | [] => []
  | .printDict d k f :: es => .printDict d k f :: projections es
  | .printList l k f :: es => .printList l k f :: projections es
  | _ :: es => projections es

/-! ## Collaborators -/

/-- The remote resource client. Each operation answers with the Go result
pair: a possibly nil record and a possibly nil error. -/
structure Client where
  CreateVolume : VolumeSpec → Option VolumeSpec × Option GoError
  GetVolume : String → Option VolumeSpec × Option GoError
  ListVolumes : StringMap → List VolumeSpec × Option GoError
  DeleteVolume : String → VolumeSpec → Option GoError
  UpdateVolume : String → VolumeSpec → Option VolumeSpec × Option GoError
  ExtendVolume : String → ExtendVolumeSpec → Option VolumeSpec × Option GoError

/-- What a handler is linked against: the package variable `client` and the
helper `HttpErrStrip`, whose body is not in the source file. -/
structure Env where
  client : Client
  HttpErrStrip : GoError → String

/-- The error the client answers a call with, if any. -/
def Client.errorOf (c : Client) : RemoteCall → Option GoError
  | .CreateVolume vol => (c.CreateVolume vol).2
  | .GetVolume id => (c.GetVolume id).2
  | .ListVolumes opts => (c.ListVolumes opts).2
  | .DeleteVolume id vol => c.DeleteVolume id vol
  | .UpdateVolume id vol => (c.UpdateVolume id vol).2
  | .ExtendVolume id body => (c.ExtendVolume id body).2

/-- Modelled from the spec: `ArgsNumCheck` is not in the source file. Given the
positional arguments and the required arity it confirms that the count matches
exactly; a mismatch is a fatal usage error: the command usage text is printed
and the process aborts with a non-zero status (1 here; the spec fixes only
that it is non-zero). -/
def ArgsNumCheck (cmd : Command) (args : List String) (invalidNum : Nat) : Proc Unit :=
  if args.length ≠ invalidNum then exitWith (.usage cmd) 1 else pure ()

/-- Modelled from the spec: `Fatalln` is not in the source file. It prints a
user-facing message and immediately terminates the process with a non-zero
status (1 here; the spec fixes only that it is non-zero). -/
def Fatalln (msg : String) : Proc Unit :=
  exitWith (.fatalln msg) 1

/-- Go `log.Fatalf`: prints the formatted message, then `os.Exit(1)`. -/
def logFatalf (format : String) (args : List FmtArg) : Proc Unit :=
  exitWith (.logFatalf { format := format, args := args }) 1

/-- Invocation of the projector `PrintDict` (its body is not in the source file). -/
def PrintDict (dict : Option VolumeSpec) (keys : KeyList) (formatters : FormatterList) :
    Proc Unit :=
  emit (.printDict dict keys formatters)

/-- Invocation of the projector `PrintList` (its body is not in the source file). -/
def PrintList (list : List VolumeSpec) (keys : KeyList) (formatters : FormatterList) :
    Proc Unit :=
  emit (.printList list keys formatters)

/-- Perform a remote call: it is recorded in the trace and its answer returned. -/
def call {α : Type} (c : RemoteCall) (answer : α) : Proc α := ⟨[.remote c], .ok answer⟩

/-! ## The handlers -/

def volFormatters : FormatterList := [("Metadata", .JsonFormatter)]

def volumeAction (cmd : Command) (_args : List String) : Proc Unit :=
  exitWith (.usage cmd) 1

def volumeCreateAction (env : Env) (g : Globals) (args : List String) : Proc Unit := do
  ArgsNumCheck volumeCreateCommand args 1
  let a0 ← index args 0
  match Atoi a0 with
  | .error err =>
      Fatalln "input size is not valid. It only support integer."
      logFatalf "error parsing size %s: %+v" [.str a0, .numError err]
  | .ok size =>
      let vol : VolumeSpec :=
        { Name := g.volName,
          Description := g.volDesp,
          AvailabilityZone := g.volAz,
          Size := int64 size,
          ProfileId := g.profileId,
          PoolId := g.poolId,
          SnapshotId := g.volSnap,
          SnapshotFromCloud := g.snapshotFromCloud }
      let (resp, err) ← call (.CreateVolume vol) (env.client.CreateVolume vol)
      if let some e := err then
        Fatalln (env.HttpErrStrip e)
      let keys : KeyList := ["Id", "CreatedAt", "Name", "Description", "Size", "AvailabilityZone",
        "Status", "PoolId", "ProfileId", "Metadata", "GroupId", "MultiAttach"]
      PrintDict resp keys volFormatters

def volumeShowAction (env : Env) (_g : Globals) (args : List String) : Proc Unit := do
  ArgsNumCheck volumeShowCommand args 1
  let a0 ← index args 0
  let (resp, err) ← call (.GetVolume a0) (env.client.GetVolume a0)
  if let some e := err then
    Fatalln (env.HttpErrStrip e)
  let keys : KeyList := ["Id", "CreatedAt", "UpdatedAt", "Name", "Description", "Size",
    "AvailabilityZone", "Status", "PoolId", "ProfileId", "Metadata", "GroupId", "SnapshotId",
    "MultiAttach"]
  PrintDict resp keys volFormatters

def volumeListAction (env : Env) (g : Globals) (args : List String) : Proc Unit := do
  ArgsNumCheck volumeListCommand args 0
  let opts : StringMap := [("limit", g.volLimit), ("offset", g.volOffset),
    ("sortDir", g.volSortDir), ("sortKey", g.volSortKey), ("Id", g.volId),
    ("Name", g.volName), ("Description", g.volDesp), ("UserId", g.volUserId),
    ("AvailabilityZone", g.volAz), ("Status", g.volStatus), ("PoolId", g.volPoolId),
    ("ProfileId", g.volProfileId), ("GroupId", g.volGroupId)]
  let (resp, err) ← call (.ListVolumes opts) (env.client.ListVolumes opts)
  if let some e := err then
    Fatalln (env.HttpErrStrip e)
  let keys : KeyList := ["Id", "Name", "Description", "Size", "Status", "ProfileId",
    "AvailabilityZone"]
  PrintList resp keys volFormatters

def volumeDeleteAction (env : Env) (g : Globals) (args : List String) : Proc Unit := do
  ArgsNumCheck volumeDeleteCommand args 1
  let vol : VolumeSpec := { ProfileId := g.profileId }
  let a0 ← index args 0
  let err ← call (.DeleteVolume a0 vol) (env.client.DeleteVolume a0 vol)
  if let some e := err then
    Fatalln (env.HttpErrStrip e)

def volumeUpdateAction (env : Env) (g : Globals) (args : List String) : Proc Unit := do
  ArgsNumCheck volumeUpdateCommand args 1
  let vol : VolumeSpec := { Name := g.volName, Description := g.volDesp }
  let a0 ← index args 0
  let (resp, err) ← call (.UpdateVolume a0 vol) (env.client.UpdateVolume a0 vol)
  if let some e := err then
    Fatalln (env.HttpErrStrip e)
  let keys : KeyList := ["Id", "UpdatedAt", "Name", "Description", "Size", "AvailabilityZone",
    "Status", "PoolId", "ProfileId", "Metadata", "GroupId", "MultiAttach"]
  PrintDict resp keys volFormatters

def volumeExtendAction (env : Env) (_g : Globals) (args : List String) : Proc Unit := do
  ArgsNumCheck volumeExtendCommand args 2
  let a1 ← index args 1
  match Atoi a1 with
  | .error err =>
      logFatalf "error parsing new size %s: %+v" [.str a1, .numError err]
  | .ok newSize =>
      let body : ExtendVolumeSpec := { NewSize := int64 newSize }
      let a0 ← index args 0
      let (resp, err) ← call (.ExtendVolume a0 body) (env.client.ExtendVolume a0 body)
      if let some e := err then
        Fatalln (env.HttpErrStrip e)
      let keys : KeyList := ["Id", "CreatedAt", "UpdatedAt", "Name", "Description", "Size",
        "AvailabilityZone", "Status", "PoolId", "ProfileId", "Metadata", "GroupId", "MultiAttach"]
      PrintDict resp keys volFormatters

/-- The `Run` field of each subcommand. -/
def Subcommand.Run : Subcommand → Env → Globals → List String → Proc Unit
  | .create => volumeCreateAction
  | .show => volumeShowAction
  | .list => volumeListAction
  | .delete => volumeDeleteAction
  | .update => volumeUpdateAction
  | .extend => volumeExtendAction

/-! ## The projector -/

/-- A field value as the rendering engine sees it through reflection. -/
inductive Value
  | str (s : String)
  | int (n : Int)
  | bool (b : Bool)
  | map (m : StringMap)
deriving DecidableEq, Repr

/-- Field lookup by name on a volume record. -/
def VolumeSpec.field (r : VolumeSpec) (k : String) : Option Value :=
  if k = "Id" then some (.str r.Id)
  else if k = "CreatedAt" then some (.str r.CreatedAt)
  else if k = "UpdatedAt" then some (.str r.UpdatedAt)
  else if k = "Name" then some (.str r.Name)
  else if k = "Description" then some (.str r.Description)
  else if k = "Size" then some (.int r.Size)
  else if k = "AvailabilityZone" then some (.str r.AvailabilityZone)
  else if k = "Status" then some (.str r.Status)
  else if k = "PoolId" then some (.str r.PoolId)
  else if k = "ProfileId" then some (.str r.ProfileId)
  else if k = "Metadata" then some (.map r.Metadata)
  else if k = "GroupId" then some (.str r.GroupId)
  else if k = "SnapshotId" then some (.str r.SnapshotId)
  else if k = "SnapshotFromCloud" then some (.bool r.SnapshotFromCloud)
  else if k = "MultiAttach" then some (.bool r.MultiAttach)
  else none

/-- One rendered row value: either the flat default rendering of the value, or
the value passed through a registered formatter. -/
inductive Cell
  | flat (v : Value)
  | formatted (f : Formatter) (v : Value)
deriving DecidableEq, Repr

/-- Modelled from the spec: the body of `PrintDict` is not in the source file.
Given a returned resource and an ordered list of field names it renders exactly
those fields, in that order, one row per name; a field with a registered
formatter is rendered through it, every other field flat. -/
def renderDict (dict : VolumeSpec) (keys : KeyList) (formatters : FormatterList) :
    List (String × Cell) :=
  keys.filterMap (fun k =>
    match dict.field k with
    | none => none
    | some v =>
        match formatters.lookup k with
        | some f => some (k, .formatted f v)
        | none => some (k, .flat v))

/-- The rows a projector invocation puts on the terminal; other events, and
a projector handed a nil record, render no record. -/
def Event.rendered : Event → Option (List (String × Cell))
  | .printDict (some dict) keys formatters => some (renderDict dict keys formatters)
  | _ => none

/-- The records displayed by a run, in order, each as its rendered rows. -/
def display (trace : List Event) : List (List (String × Cell)) :=
  trace.filterMap Event.rendered

/-! ## Test collaborators -/

/-- A record with a distinct, non-zero value in every field. -/
def sampleVolume : VolumeSpec :=
  { Id := "vol-1", CreatedAt := "2017-07-10T14:36:58", UpdatedAt := "2017-07-11T09:00:00",
    Name := "data", Description := "scratch space", Size := 8, AvailabilityZone := "az1",
    Status := "available", PoolId := "pool-7", ProfileId := "gold",
    Metadata := [("tier", "hot")], GroupId := "grp-2", SnapshotId := "snap-3",
    SnapshotFromCloud := true, MultiAttach := true }

/-- A client whose `GetVolume` answers every id with the given record. -/
def showingClient (r : VolumeSpec) : Client :=
  { CreateVolume := fun _ => (some r, none),
    GetVolume := fun _ => (some r, none),
    ListVolumes := fun _ => ([r], none),
    DeleteVolume := fun _ _ => none,
    UpdateVolume := fun _ _ => (some r, none),
    ExtendVolume := fun _ _ => (some r, none) }

/-- An environment around `showingClient r`; errors are shown unchanged. -/
def showingEnv (r : VolumeSpec) : Env :=
  { client := showingClient r, HttpErrStrip := fun m => m }

/-- A client that accepts every request and answers with an empty record. -/
def okClient : Client :=
  { CreateVolume := fun _ => (some {}, none),
    GetVolume := fun _ => (some {}, none),
    ListVolumes := fun _ => ([], none),
    DeleteVolume := fun _ _ => none,
    UpdateVolume := fun _ _ => (some {}, none),
    ExtendVolume := fun _ _ => (some {}, none) }

/-- A client that answers every request with the given error. -/
def failingClient (e : GoError) : Client :=
  { CreateVolume := fun _ => (none, some e),
    GetVolume := fun _ => (none, some e),
    ListVolumes := fun _ => ([], some e),
    DeleteVolume := fun _ _ => some e,
    UpdateVolume := fun _ _ => (none, some e),
    ExtendVolume := fun _ _ => (none, some e) }

/-- An environment around `okClient`; errors are shown unchanged. -/
def okEnv : Env := { client := okClient, HttpErrStrip := fun e => e }

/-- An environment around `failingClient e`; errors are shown unchanged. -/
def failingEnv (e : GoError) : Env := { client := failingClient e, HttpErrStrip := fun m => m }

/-! ## Auxiliary notions for the statements -/

/-- The value given last for a flag on the command line, if it was supplied. -/
def lastValue : List (String × String) → String → Option String
  | [], _ => none
  | (n, v) :: rest, name =>
      match lastValue rest name with
      | some w => some w
      | none => if n = name then some v else none

/-- The text a flag of `cmd` holds once the command line is parsed: the value
supplied last, or the registered default when the flag was not supplied. -/
def flagValue (cmd : Subcommand) (supplied : List (String × String)) (name : String) : String :=
  (lastValue supplied name).getD
    (match cmd.flags.find? (fun f => f.name == name) with
     | some f => f.defVal
     | none => "")

/-- Read an option variable by name, as text. -/
def Globals.get (g : Globals) : Var → String
  | .profileId => g.profileId
  | .volName => g.volName
  | .volDesp => g.volDesp
  | .volAz => g.volAz
  | .volSnap => g.volSnap
  | .volLimit => g.volLimit
  | .volOffset => g.volOffset
  | .volSortDir => g.volSortDir
  | .volSortKey => g.volSortKey
  | .volId => g.volId
  | .volTenantId => g.volTenantId
  | .volUserId => g.volUserId
  | .volStatus => g.volStatus
  | .volPoolId => g.volPoolId
  | .volProfileId => g.volProfileId
  | .volGroupId => g.volGroupId
  | .poolId => g.poolId
  | .snapshotFromCloud => if g.snapshotFromCloud then "true" else "false"

/-- The four ways a handler run can go: a usage error, an input-format error,
a remote error, or success after a single remote call. -/
inductive RunShape (env : Env) (cmd : Command) : Proc Unit → Prop
  | usageError : RunShape env cmd ⟨[.usage cmd], .error (.exit 1)⟩
  | inputError (ev : Event) (h : (∃ msg, ev = .fatalln msg) ∨ (∃ msg, ev = .logFatalf msg)) :
      RunShape env cmd ⟨[ev], .error (.exit 1)⟩
  | remoteError (c : RemoteCall) (e : GoError) (h : env.client.errorOf c = some e) :
      RunShape env cmd ⟨[.remote c, .fatalln (env.HttpErrStrip e)], .error (.exit 1)⟩
  | success (c : RemoteCall) (out : List Event) (h : env.client.errorOf c = none)
      (hout : remoteCalls out = []) :
      RunShape env cmd ⟨.remote c :: out, .ok ()⟩

/-- The fourteen fields the show projection is stated to surface, in order. -/
def showFields : KeyList :=
  ["Id", "CreatedAt", "UpdatedAt", "Name", "Description", "Size", "AvailabilityZone", "Status",
    "PoolId", "ProfileId", "Metadata", "GroupId", "SnapshotId", "MultiAttach"]

/-- Two records agree on the fourteen fields of `showFields`. -/
def agreeOnShowFields (r r1 : VolumeSpec) : Prop :=
  r.Id = r1.Id ∧ r.CreatedAt = r1.CreatedAt ∧ r.UpdatedAt = r1.UpdatedAt ∧ r.Name = r1.Name ∧
  r.Description = r1.Description ∧ r.Size = r1.Size ∧
  r.AvailabilityZone = r1.AvailabilityZone ∧ r.Status = r1.Status ∧ r.PoolId = r1.PoolId ∧
  r.ProfileId = r1.ProfileId ∧ r.Metadata = r1.Metadata ∧ r.GroupId = r1.GroupId ∧
  r.SnapshotId = r1.SnapshotId ∧ r.MultiAttach = r1.MultiAttach

/-! ## Basic facts about processes -/

theorem Proc.bind_def {α β : Type} (m : Proc α) (f : α → Proc β) :
    (m >>= f) = Proc.bind m f := rfl

theorem Proc.pure_def {α : Type} (a : α) : (pure a : Proc α) = ⟨[], .ok a⟩ := rfl

theorem ArgsNumCheck_ne (cmd : Command) (args : List String) (n : Nat) (h : args.length ≠ n) :
    ArgsNumCheck cmd args n = ⟨[.usage cmd], .error (.exit 1)⟩ := by
  simp [ArgsNumCheck, h, exitWith]

theorem ArgsNumCheck_eq (cmd : Command) (args : List String) (n : Nat) (h : args.length = n) :
    ArgsNumCheck cmd args n = ⟨[], .ok ()⟩ := by
  simp [ArgsNumCheck, h, Proc.pure_def]

theorem inRange_ok (s : String) (v n : Int) (h : inRange s v = .ok n) :
    v = n ∧ minInt ≤ n ∧ n ≤ maxInt := by
  unfold inRange at h
  split at h
  · cases h
  · injection h with h
    subst h
    omega

theorem signedValue_range (s : String) (neg : Bool) (o : Option Nat) (n : Int)
    (h : signedValue s neg o = .ok n) : minInt ≤ n ∧ n ≤ maxInt := by
  cases o with
  | none => cases h
  | some d => exact (inRange_ok s _ n h).2

theorem Atoi_range (s : String) (n : Int) (h : Atoi s = .ok n) : minInt ≤ n ∧ n ≤ maxInt :=
  signedValue_range s _ _ n h

theorem int64_of_range (n : Int) (h : minInt ≤ n ∧ n ≤ maxInt) : int64 n = n := by
  unfold minInt maxInt at h
  unfold int64
  omega

theorem int64_Atoi (s : String) (n : Int) (h : Atoi s = .ok n) : int64 n = n :=
  int64_of_range n (Atoi_range s n h)

/-! ## The shape of each handler run -/

theorem volumeCreateAction_arity (env : Env) (g : Globals) (args : List String)
    (h : args.length ≠ 1) :
    volumeCreateAction env g args = ⟨[.usage volumeCreateCommand], .error (.exit 1)⟩ := by
  simp [volumeCreateAction, Proc.bind_def, Proc.bind, ArgsNumCheck_ne _ _ _ h]

theorem volumeCreateAction_parse (env : Env) (g : Globals) (s : String) (err : NumError)
    (h : Atoi s = .error err) :
    volumeCreateAction env g [s] =
      ⟨[.fatalln "input size is not valid. It only support integer."], .error (.exit 1)⟩ := by
  simp [volumeCreateAction, Proc.bind_def, Proc.bind, ArgsNumCheck, index, h, Fatalln, exitWith,
    Proc.pure_def]

theorem volumeCreateAction_err (env : Env) (g : Globals) (s : String) (n : Int) (e : GoError)
    (h : Atoi s = .ok n)
    (he : (env.client.CreateVolume
      { Name := g.volName, Description := g.volDesp, AvailabilityZone := g.volAz, Size := n,
        ProfileId := g.profileId, PoolId := g.poolId, SnapshotId := g.volSnap,
        SnapshotFromCloud := g.snapshotFromCloud }).2 = some e) :
    volumeCreateAction env g [s] =
      ⟨[.remote (.CreateVolume
          { Name := g.volName, Description := g.volDesp, AvailabilityZone := g.volAz, Size := n,
            ProfileId := g.profileId, PoolId := g.poolId, SnapshotId := g.volSnap,
            SnapshotFromCloud := g.snapshotFromCloud }),
        .fatalln (env.HttpErrStrip e)], .error (.exit 1)⟩ := by
  simp [volumeCreateAction, Proc.bind_def, Proc.bind, ArgsNumCheck, index, h, Fatalln, exitWith,
    Proc.pure_def, call, int64_Atoi s n h, he]

theorem volumeCreateAction_ok (env : Env) (g : Globals) (s : String) (n : Int)
    (h : Atoi s = .ok n)
    (he : (env.client.CreateVolume
      { Name := g.volName, Description := g.volDesp, AvailabilityZone := g.volAz, Size := n,
        ProfileId := g.profileId, PoolId := g.poolId, SnapshotId := g.volSnap,
        SnapshotFromCloud := g.snapshotFromCloud }).2 = none) :
    volumeCreateAction env g [s] =
      ⟨[.remote (.CreateVolume
          { Name := g.volName, Description := g.volDesp, AvailabilityZone := g.volAz, Size := n,
            ProfileId := g.profileId, PoolId := g.poolId, SnapshotId := g.volSnap,
            SnapshotFromCloud := g.snapshotFromCloud }),
        .printDict (env.client.CreateVolume
          { Name := g.volName, Description := g.volDesp, AvailabilityZone := g.volAz, Size := n,
            ProfileId := g.profileId, PoolId := g.poolId, SnapshotId := g.volSnap,
            SnapshotFromCloud := g.snapshotFromCloud }).1
          ["Id", "CreatedAt", "Name", "Description", "Size", "AvailabilityZone",
            "Status", "PoolId", "ProfileId", "Metadata", "GroupId", "MultiAttach"] volFormatters],
        .ok ()⟩ := by
  simp [volumeCreateAction, Proc.bind_def, Proc.bind, ArgsNumCheck, index, h, Fatalln, exitWith,
    Proc.pure_def, call, int64_Atoi s n h, he, PrintDict, emit]

theorem volumeShowAction_arity (env : Env) (g : Globals) (args : List String)
    (h : args.length ≠ 1) :
    volumeShowAction env g args = ⟨[.usage volumeShowCommand], .error (.exit 1)⟩ := by
  simp [volumeShowAction, Proc.bind_def, Proc.bind, ArgsNumCheck_ne _ _ _ h]

theorem volumeShowAction_err (env : Env) (g : Globals) (id : String) (e : GoError)
    (he : (env.client.GetVolume id).2 = some e) :
    volumeShowAction env g [id] =
      ⟨[.remote (.GetVolume id), .fatalln (env.HttpErrStrip e)], .error (.exit 1)⟩ := by
  simp [volumeShowAction, Proc.bind_def, Proc.bind, ArgsNumCheck, index, Fatalln, exitWith,
    Proc.pure_def, call, he]

theorem volumeShowAction_ok (env : Env) (g : Globals) (id : String)
    (he : (env.client.GetVolume id).2 = none) :
    volumeShowAction env g [id] =
      ⟨[.remote (.GetVolume id),
        .printDict (env.client.GetVolume id).1
          ["Id", "CreatedAt", "UpdatedAt", "Name", "Description", "Size", "AvailabilityZone",
            "Status", "PoolId", "ProfileId", "Metadata", "GroupId", "SnapshotId", "MultiAttach"]
          volFormatters],
        .ok ()⟩ := by
  simp [volumeShowAction, Proc.bind_def, Proc.bind, ArgsNumCheck, index, Fatalln, exitWith,
    Proc.pure_def, call, he, PrintDict, emit]

theorem volumeListAction_arity (env : Env) (g : Globals) (args : List String)
    (h : args.length ≠ 0) :
    volumeListAction env g args = ⟨[.usage volumeListCommand], .error (.exit 1)⟩ := by
  simp [volumeListAction, Proc.bind_def, Proc.bind, ArgsNumCheck_ne _ _ _ h]

theorem volumeListAction_err (env : Env) (g : Globals) (e : GoError)
    (he : (env.client.ListVolumes
      [("limit", g.volLimit), ("offset", g.volOffset), ("sortDir", g.volSortDir),
        ("sortKey", g.volSortKey), ("Id", g.volId), ("Name", g.volName),
        ("Description", g.volDesp), ("UserId", g.volUserId), ("AvailabilityZone", g.volAz),
        ("Status", g.volStatus), ("PoolId", g.volPoolId), ("ProfileId", g.volProfileId),
        ("GroupId", g.volGroupId)]).2 = some e) :
    volumeListAction env g [] =
      ⟨[.remote (.ListVolumes
          [("limit", g.volLimit), ("offset", g.volOffset), ("sortDir", g.volSortDir),
            ("sortKey", g.volSortKey), ("Id", g.volId), ("Name", g.volName),
            ("Description", g.volDesp), ("UserId", g.volUserId), ("AvailabilityZone", g.volAz),
            ("Status", g.volStatus), ("PoolId", g.volPoolId), ("ProfileId", g.volProfileId),
            ("GroupId", g.volGroupId)]),
        .fatalln (env.HttpErrStrip e)], .error (.exit 1)⟩ := by
  simp [volumeListAction, Proc.bind_def, Proc.bind, ArgsNumCheck, Fatalln, exitWith,
    Proc.pure_def, call, he]

theorem volumeListAction_ok (env : Env) (g : Globals)
    (he : (env.client.ListVolumes
      [("limit", g.volLimit), ("offset", g.volOffset), ("sortDir", g.volSortDir),
        ("sortKey", g.volSortKey), ("Id", g.volId), ("Name", g.volName),
        ("Description", g.volDesp), ("UserId", g.volUserId), ("AvailabilityZone", g.volAz),
        ("Status", g.volStatus), ("PoolId", g.volPoolId), ("ProfileId", g.volProfileId),
        ("GroupId", g.volGroupId)]).2 = none) :
    volumeListAction env g [] =
      ⟨[.remote (.ListVolumes
          [("limit", g.volLimit), ("offset", g.volOffset), ("sortDir", g.volSortDir),
            ("sortKey", g.volSortKey), ("Id", g.volId), ("Name", g.volName),
            ("Description", g.volDesp), ("UserId", g.volUserId), ("AvailabilityZone", g.volAz),
            ("Status", g.volStatus), ("PoolId", g.volPoolId), ("ProfileId", g.volProfileId),
            ("GroupId", g.volGroupId)]),
        .printList (env.client.ListVolumes
          [("limit", g.volLimit), ("offset", g.volOffset), ("sortDir", g.volSortDir),
            ("sortKey", g.volSortKey), ("Id", g.volId), ("Name", g.volName),
            ("Description", g.volDesp), ("UserId", g.volUserId), ("AvailabilityZone", g.volAz),
            ("Status", g.volStatus), ("PoolId", g.volPoolId), ("ProfileId", g.volProfileId),
            ("GroupId", g.volGroupId)]).1
          ["Id", "Name", "Description", "Size", "Status", "ProfileId", "AvailabilityZone"]
          volFormatters],
        .ok ()⟩ := by
  simp [volumeListAction, Proc.bind_def, Proc.bind, ArgsNumCheck, Fatalln, exitWith,
    Proc.pure_def, call, he, PrintList, emit]

theorem volumeDeleteAction_arity (env : Env) (g : Globals) (args : List String)
    (h : args.length ≠ 1) :
    volumeDeleteAction env g args = ⟨[.usage volumeDeleteCommand], .error (.exit 1)⟩ := by
  simp [volumeDeleteAction, Proc.bind_def, Proc.bind, ArgsNumCheck_ne _ _ _ h]

theorem volumeDeleteAction_err (env : Env) (g : Globals) (id : String) (e : GoError)
    (he : env.client.DeleteVolume id { ProfileId := g.profileId } = some e) :
    volumeDeleteAction env g [id] =
      ⟨[.remote (.DeleteVolume id { ProfileId := g.profileId }),
        .fatalln (env.HttpErrStrip e)], .error (.exit 1)⟩ := by
  simp [volumeDeleteAction, Proc.bind_def, Proc.bind, ArgsNumCheck, index, Fatalln, exitWith,
    Proc.pure_def, call, he]

theorem volumeDeleteAction_ok (env : Env) (g : Globals) (id : String)
    (he : env.client.DeleteVolume id { ProfileId := g.profileId } = none) :
    volumeDeleteAction env g [id] =
      ⟨[.remote (.DeleteVolume id { ProfileId := g.profileId })], .ok ()⟩ := by
  simp [volumeDeleteAction, Proc.bind_def, Proc.bind, ArgsNumCheck, index, Fatalln, exitWith,
    Proc.pure_def, call, he]

theorem volumeUpdateAction_arity (env : Env) (g : Globals) (args : List String)
    (h : args.length ≠ 1) :
    volumeUpdateAction env g args = ⟨[.usage volumeUpdateCommand], .error (.exit 1)⟩ := by
  simp [volumeUpdateAction, Proc.bind_def, Proc.bind, ArgsNumCheck_ne _ _ _ h]

theorem volumeUpdateAction_err (env : Env) (g : Globals) (id : String) (e : GoError)
    (he : (env.client.UpdateVolume id { Name := g.volName, Description := g.volDesp }).2
      = some e) :
    volumeUpdateAction env g [id] =
      ⟨[.remote (.UpdateVolume id { Name := g.volName, Description := g.volDesp }),
        .fatalln (env.HttpErrStrip e)], .error (.exit 1)⟩ := by
  simp [volumeUpdateAction, Proc.bind_def, Proc.bind, ArgsNumCheck, index, Fatalln, exitWith,
    Proc.pure_def, call, he]

theorem volumeUpdateAction_ok (env : Env) (g : Globals) (id : String)
    (he : (env.client.UpdateVolume id { Name := g.volName, Description := g.volDesp }).2
      = none) :
    volumeUpdateAction env g [id] =
      ⟨[.remote (.UpdateVolume id { Name := g.volName, Description := g.volDesp }),
        .printDict (env.client.UpdateVolume id
            { Name := g.volName, Description := g.volDesp }).1
          ["Id", "UpdatedAt", "Name", "Description", "Size", "AvailabilityZone",
            "Status", "PoolId", "ProfileId", "Metadata", "GroupId", "MultiAttach"]
          volFormatters],
        .ok ()⟩ := by
  simp [volumeUpdateAction, Proc.bind_def, Proc.bind, ArgsNumCheck, index, Fatalln, exitWith,
    Proc.pure_def, call, he, PrintDict, emit]

theorem volumeExtendAction_arity (env : Env) (g : Globals) (args : List String)
    (h : args.length ≠ 2) :
    volumeExtendAction env g args = ⟨[.usage volumeExtendCommand], .error (.exit 1)⟩ := by
  simp [volumeExtendAction, Proc.bind_def, Proc.bind, ArgsNumCheck_ne _ _ _ h]

theorem volumeExtendAction_parse (env : Env) (g : Globals) (id s : String) (err : NumError)
    (h : Atoi s = .error err) :
    volumeExtendAction env g [id, s] =
      ⟨[.logFatalf
          { format := "error parsing new size %s: %+v", args := [.str s, .numError err] }],
        .error (.exit 1)⟩ := by
  simp [volumeExtendAction, Proc.bind_def, Proc.bind, ArgsNumCheck, index, h, logFatalf,
    exitWith, Proc.pure_def]

theorem volumeExtendAction_err (env : Env) (g : Globals) (id s : String) (n : Int)
    (e : GoError) (h : Atoi s = .ok n)
    (he : (env.client.ExtendVolume id { NewSize := n }).2 = some e) :
    volumeExtendAction env g [id, s] =
      ⟨[.remote (.ExtendVolume id { NewSize := n }), .fatalln (env.HttpErrStrip e)],
        .error (.exit 1)⟩ := by
  simp [volumeExtendAction, Proc.bind_def, Proc.bind, ArgsNumCheck, index, h, Fatalln, exitWith,
    Proc.pure_def, call, int64_Atoi s n h, he]

theorem volumeExtendAction_ok (env : Env) (g : Globals) (id s : String) (n : Int)
    (h : Atoi s = .ok n)
    (he : (env.client.ExtendVolume id { NewSize := n }).2 = none) :
    volumeExtendAction env g [id, s] =
      ⟨[.remote (.ExtendVolume id { NewSize := n }),
        .printDict (env.client.ExtendVolume id { NewSize := n }).1
          ["Id", "CreatedAt", "UpdatedAt", "Name", "Description", "Size", "AvailabilityZone",
            "Status", "PoolId", "ProfileId", "Metadata", "GroupId", "MultiAttach"]
          volFormatters],
        .ok ()⟩ := by
  simp [volumeExtendAction, Proc.bind_def, Proc.bind, ArgsNumCheck, index, h, Fatalln, exitWith,
    Proc.pure_def, call, int64_Atoi s n h, he, PrintDict, emit]

/-! ## The remote calls of each handler -/

theorem volumeCreateAction_calls (env : Env) (g : Globals) (s : String) (n : Int)
    (h : Atoi s = .ok n) :
    remoteCalls (volumeCreateAction env g [s]).trace =
      [.CreateVolume
        { Name := g.volName, Description := g.volDesp, AvailabilityZone := g.volAz, Size := n,
          ProfileId := g.profileId, PoolId := g.poolId, SnapshotId := g.volSnap,
          SnapshotFromCloud := g.snapshotFromCloud }] := by
  cases he : (env.client.CreateVolume
      { Name := g.volName, Description := g.volDesp, AvailabilityZone := g.volAz, Size := n,
        ProfileId := g.profileId, PoolId := g.poolId, SnapshotId := g.volSnap,
        SnapshotFromCloud := g.snapshotFromCloud }).2 with
  | none => rw [volumeCreateAction_ok env g s n h he]; rfl
  | some e => rw [volumeCreateAction_err env g s n e h he]; rfl

theorem volumeShowAction_calls (env : Env) (g : Globals) (id : String) :
    remoteCalls (volumeShowAction env g [id]).trace = [.GetVolume id] := by
  cases he : (env.client.GetVolume id).2 with
  | none => rw [volumeShowAction_ok env g id he]; rfl
  | some e => rw [volumeShowAction_err env g id e he]; rfl

theorem volumeListAction_calls (env : Env) (g : Globals) :
    remoteCalls (volumeListAction env g []).trace =
      [.ListVolumes
        [("limit", g.volLimit), ("offset", g.volOffset), ("sortDir", g.volSortDir),
          ("sortKey", g.volSortKey), ("Id", g.volId), ("Name", g.volName),
          ("Description", g.volDesp), ("UserId", g.volUserId), ("AvailabilityZone", g.volAz),
          ("Status", g.volStatus), ("PoolId", g.volPoolId), ("ProfileId", g.volProfileId),
          ("GroupId", g.volGroupId)]] := by
  cases he : (env.client.ListVolumes
      [("limit", g.volLimit), ("offset", g.volOffset), ("sortDir", g.volSortDir),
        ("sortKey", g.volSortKey), ("Id", g.volId), ("Name", g.volName),
        ("Description", g.volDesp), ("UserId", g.volUserId), ("AvailabilityZone", g.volAz),
        ("Status", g.volStatus), ("PoolId", g.volPoolId), ("ProfileId", g.volProfileId),
        ("GroupId", g.volGroupId)]).2 with
  | none => rw [volumeListAction_ok env g he]; rfl
  | some e => rw [volumeListAction_err env g e he]; rfl

theorem volumeDeleteAction_calls (env : Env) (g : Globals) (id : String) :
    remoteCalls (volumeDeleteAction env g [id]).trace =
      [.DeleteVolume id { ProfileId := g.profileId }] := by
  cases he : env.client.DeleteVolume id { ProfileId := g.profileId } with
  | none => rw [volumeDeleteAction_ok env g id he]; rfl
  | some e => rw [volumeDeleteAction_err env g id e he]; rfl

theorem volumeUpdateAction_calls (env : Env) (g : Globals) (id : String) :
    remoteCalls (volumeUpdateAction env g [id]).trace =
      [.UpdateVolume id { Name := g.volName, Description := g.volDesp }] := by
  cases he : (env.client.UpdateVolume id { Name := g.volName, Description := g.volDesp }).2 with
  | none => rw [volumeUpdateAction_ok env g id he]; rfl
  | some e => rw [volumeUpdateAction_err env g id e he]; rfl

theorem volumeExtendAction_calls (env : Env) (g : Globals) (id s : String) (n : Int)
    (h : Atoi s = .ok n) :
    remoteCalls (volumeExtendAction env g [id, s]).trace =
      [.ExtendVolume id { NewSize := n }] := by
  cases he : (env.client.ExtendVolume id { NewSize := n }).2 with
  | none => rw [volumeExtendAction_ok env g id s n h he]; rfl
  | some e => rw [volumeExtendAction_err env g id s n e h he]; rfl

/-! ## The claims -/

/-- C1: for a single positional argument that parses as the integer `n` and
for every value of the bound options, `volumeCreateAction` makes exactly one
remote call, `CreateVolume`, whose request has `Size = n` and takes `Name`,
`Description`, `AvailabilityZone`, `ProfileId`, `PoolId`, `SnapshotId` and
`SnapshotFromCloud` unchanged from the option variables, which the flags
`--name`, `--description`, `--az`, `--profile`, `--pool`, `--snapshot` and
`--snapshotFromCloud` set; `create 100 --name foo` with everything else at its
default sends `Size = 100`, `Name = "foo"` and every other field zero. -/
theorem C1_create_request (env : Env) (g : Globals) (s : String) (n : Int)
    (h : Atoi s = .ok n) :
    remoteCalls (volumeCreateAction env g [s]).trace =
        [.CreateVolume
          { Size := n, Name := g.volName, Description := g.volDesp,
            AvailabilityZone := g.volAz, ProfileId := g.profileId, PoolId := g.poolId,
            SnapshotId := g.volSnap, SnapshotFromCloud := g.snapshotFromCloud }]
    ∧ (∀ (nm ds az pf pl sn : String) (c : Bool),
        (boundOptions .create
            [("name", nm), ("description", ds), ("az", az), ("profile", pf), ("pool", pl),
              ("snapshot", sn), ("snapshotFromCloud", if c then "true" else "false")]).map
          (fun o => remoteCalls (volumeCreateAction env o [s]).trace) =
        some [.CreateVolume
          { Size := n, Name := nm, Description := ds, AvailabilityZone := az, ProfileId := pf,
            PoolId := pl, SnapshotId := sn, SnapshotFromCloud := c }])
    ∧ (boundOptions .create [("name", "foo")]).map
          (fun o => remoteCalls (volumeCreateAction env o ["100"]).trace) =
        some [.CreateVolume
          { Size := 100, Name := "foo", Description := "", AvailabilityZone := "",
            ProfileId := "", PoolId := "", SnapshotId := "", SnapshotFromCloud := false }] := by
  refine ⟨volumeCreateAction_calls env g s n h, ?_, ?_⟩
  · intro nm ds az pf pl sn c
    have hb : boundOptions .create
        [("name", nm), ("description", ds), ("az", az), ("profile", pf), ("pool", pl),
          ("snapshot", sn), ("snapshotFromCloud", if c then "true" else "false")] =
        some { init with volName := nm, volDesp := ds, volAz := az, profileId := pf,
                         poolId := pl, volSnap := sn, snapshotFromCloud := c } := by
      cases c <;> rfl
    rw [hb, Option.map_some', volumeCreateAction_calls env _ s n h]
  · have hb : boundOptions .create [("name", "foo")] = some { init with volName := "foo" } := rfl
    rw [hb, Option.map_some', volumeCreateAction_calls env _ "100" 100 rfl]
    rfl

theorem C1_create_request_witness :
    Atoi "100" = .ok 100 ∧
    remoteCalls (volumeCreateAction okEnv { volName := "foo" } ["100"]).trace =
      [.CreateVolume { Size := 100, Name := "foo" }] :=
  ⟨rfl, (C1_create_request okEnv { volName := "foo" } "100" 100 rfl).1⟩

/-- C2: when the size argument of `create <size>` or the new-size argument of
`extend <id> <new size>` does not parse as an integer, the run consists of the
fatal message alone and ends with exit status 1: the remote client is never
invoked, whatever the id. -/
theorem C2_non_numeric_size_fatal (env : Env) (g : Globals) (s : String)
    (h : ∀ n, Atoi s ≠ .ok n) :
    ((volumeCreateAction env g [s]).trace =
        [.fatalln "input size is not valid. It only support integer."]
      ∧ (volumeCreateAction env g [s]).result = .error (.exit 1)
      ∧ remoteCalls (volumeCreateAction env g [s]).trace = [])
    ∧ (∀ id : String,
        (∃ msg, (volumeExtendAction env g [id, s]).trace = [.logFatalf msg])
      ∧ (volumeExtendAction env g [id, s]).result = .error (.exit 1)
      ∧ remoteCalls (volumeExtendAction env g [id, s]).trace = []) := by
  cases hs : Atoi s with
  | ok n => exact absurd hs (h n)
  | error err =>
    refine ⟨?_, ?_⟩
    · rw [volumeCreateAction_parse env g s err hs]
      exact ⟨rfl, rfl, rfl⟩
    · intro id
      rw [volumeExtendAction_parse env g id s err hs]
      exact ⟨⟨_, rfl⟩, rfl, rfl⟩

theorem Atoi_xyz (n : Int) : Atoi "xyz" ≠ .ok n := by
  have h : Atoi "xyz" = .error { Func := "Atoi", Num := "xyz", Err := .ErrSyntax } := rfl
  rw [h]
  intro hc
  cases hc

theorem C2_non_numeric_size_fatal_witness :
    (∀ n, Atoi "xyz" ≠ .ok n) ∧
    remoteCalls (volumeCreateAction okEnv init ["xyz"]).trace = [] ∧
    remoteCalls (volumeExtendAction okEnv init ["vol-1", "xyz"]).trace = [] :=
  ⟨Atoi_xyz,
   (C2_non_numeric_size_fatal okEnv init "xyz" Atoi_xyz).1.2.2,
   ((C2_non_numeric_size_fatal okEnv init "xyz" Atoi_xyz).2 "vol-1").2.2⟩

/-- C3: for every id and every value of the option variables,
`volumeUpdateAction` makes exactly one remote call, `UpdateVolume`, whose
request has `Name` and `Description` from `--name` and `--description` and every
other field at its zero value, also when `--profile` is set;
`update <id> --name bar` sends `Name = "bar"` and `Description = ""`. -/
theorem C3_update_request (env : Env) (g : Globals) (id : String) :
    remoteCalls (volumeUpdateAction env g [id]).trace =
        [.UpdateVolume id
          { Name := g.volName, Description := g.volDesp, Id := "", CreatedAt := "",
            UpdatedAt := "", Size := 0, AvailabilityZone := "", Status := "", PoolId := "",
            ProfileId := "", Metadata := [], GroupId := "", SnapshotId := "",
            SnapshotFromCloud := false, MultiAttach := false }]
    ∧ (∀ (nm ds pf : String),
        (boundOptions .update [("profile", pf), ("name", nm), ("description", ds)]).map
          (fun o => remoteCalls (volumeUpdateAction env o [id]).trace) =
        some [.UpdateVolume id { Name := nm, Description := ds }])
    ∧ (boundOptions .update [("name", "bar")]).map
          (fun o => remoteCalls (volumeUpdateAction env o [id]).trace) =
        some [.UpdateVolume id { Name := "bar", Description := "" }] := by
  refine ⟨volumeUpdateAction_calls env g id, ?_, ?_⟩
  · intro nm ds pf
    have hb : boundOptions .update [("profile", pf), ("name", nm), ("description", ds)] =
        some { init with profileId := pf, volName := nm, volDesp := ds } := rfl
    rw [hb, Option.map_some', volumeUpdateAction_calls]
  · have hb : boundOptions .update [("name", "bar")] = some { init with volName := "bar" } := rfl
    rw [hb, Option.map_some', volumeUpdateAction_calls]
    rfl

/-! ## Every run has one of four shapes -/

theorem volumeCreateAction_shape (env : Env) (g : Globals) (args : List String) :
    RunShape env volumeCreateCommand (volumeCreateAction env g args) := by
  by_cases hl : args.length = 1
  · obtain ⟨s, rfl⟩ := List.length_eq_one.mp hl
    cases hs : Atoi s with
    | error err =>
      rw [volumeCreateAction_parse env g s err hs]
      exact .inputError _ (Or.inl ⟨_, rfl⟩)
    | ok n =>
      cases he : (env.client.CreateVolume
          { Name := g.volName, Description := g.volDesp, AvailabilityZone := g.volAz, Size := n,
            ProfileId := g.profileId, PoolId := g.poolId, SnapshotId := g.volSnap,
            SnapshotFromCloud := g.snapshotFromCloud }).2 with
      | none =>
        rw [volumeCreateAction_ok env g s n hs he]
        exact .success _ _ he rfl
      | some e =>
        rw [volumeCreateAction_err env g s n e hs he]
        exact .remoteError _ e he
  · rw [volumeCreateAction_arity env g args hl]
    exact .usageError

theorem volumeShowAction_shape (env : Env) (g : Globals) (args : List String) :
    RunShape env volumeShowCommand (volumeShowAction env g args) := by
  by_cases hl : args.length = 1
  · obtain ⟨id, rfl⟩ := List.length_eq_one.mp hl
    cases he : (env.client.GetVolume id).2 with
    | none =>
      rw [volumeShowAction_ok env g id he]
      exact .success _ _ he rfl
    | some e =>
      rw [volumeShowAction_err env g id e he]
      exact .remoteError _ e he
  · rw [volumeShowAction_arity env g args hl]
    exact .usageError

theorem volumeListAction_shape (env : Env) (g : Globals) (args : List String) :
    RunShape env volumeListCommand (volumeListAction env g args) := by
  by_cases hl : args.length = 0
  · obtain rfl := List.length_eq_zero.mp hl
    cases he : (env.client.ListVolumes
        [("limit", g.volLimit), ("offset", g.volOffset), ("sortDir", g.volSortDir),
          ("sortKey", g.volSortKey), ("Id", g.volId), ("Name", g.volName),
          ("Description", g.volDesp), ("UserId", g.volUserId), ("AvailabilityZone", g.volAz),
          ("Status", g.volStatus), ("PoolId", g.volPoolId), ("ProfileId", g.volProfileId),
          ("GroupId", g.volGroupId)]).2 with
    | none =>
      rw [volumeListAction_ok env g he]
      exact .success _ _ he rfl
    | some e =>
      rw [volumeListAction_err env g e he]
      exact .remoteError _ e he
  · rw [volumeListAction_arity env g args hl]
    exact .usageError

theorem volumeDeleteAction_shape (env : Env) (g : Globals) (args : List String) :
    RunShape env volumeDeleteCommand (volumeDeleteAction env g args) := by
  by_cases hl : args.length = 1
  · obtain ⟨id, rfl⟩ := List.length_eq_one.mp hl
    cases he : env.client.DeleteVolume id { ProfileId := g.profileId } with
    | none =>
      rw [volumeDeleteAction_ok env g id he]
      exact .success _ _ he rfl
    | some e =>
      rw [volumeDeleteAction_err env g id e he]
      exact .remoteError _ e he
  · rw [volumeDeleteAction_arity env g args hl]
    exact .usageError

theorem volumeUpdateAction_shape (env : Env) (g : Globals) (args : List String) :
    RunShape env volumeUpdateCommand (volumeUpdateAction env g args) := by
  by_cases hl : args.length = 1
  · obtain ⟨id, rfl⟩ := List.length_eq_one.mp hl
    cases he : (env.client.UpdateVolume id
        { Name := g.volName, Description := g.volDesp }).2 with
    | none =>
      rw [volumeUpdateAction_ok env g id he]
      exact .success _ _ he rfl
    | some e =>
      rw [volumeUpdateAction_err env g id e he]
      exact .remoteError _ e he
  · rw [volumeUpdateAction_arity env g args hl]
    exact .usageError

theorem volumeExtendAction_shape (env : Env) (g : Globals) (args : List String) :
    RunShape env volumeExtendCommand (volumeExtendAction env g args) := by
  by_cases hl : args.length = 2
  · obtain ⟨id, s, rfl⟩ := List.length_eq_two.mp hl
    cases hs : Atoi s with
    | error err =>
      rw [volumeExtendAction_parse env g id s err hs]
      exact .inputError _ (Or.inr ⟨_, rfl⟩)
    | ok n =>
      cases he : (env.client.ExtendVolume id { NewSize := n }).2 with
      | none =>
        rw [volumeExtendAction_ok env g id s n hs he]
        exact .success _ _ he rfl
      | some e =>
        rw [volumeExtendAction_err env g id s n e hs he]
        exact .remoteError _ e he
  · rw [volumeExtendAction_arity env g args hl]
    exact .usageError

theorem Run_shape (cmd : Subcommand) (env : Env) (g : Globals) (args : List String) :
    RunShape env cmd.command (cmd.Run env g args) := by
  cases cmd
  · exact volumeCreateAction_shape env g args
  · exact volumeShowAction_shape env g args
  · exact volumeListAction_shape env g args
  · exact volumeDeleteAction_shape env g args
  · exact volumeUpdateAction_shape env g args
  · exact volumeExtendAction_shape env g args

theorem RunShape.no_panic {env : Env} {cmd : Command} {p : Proc Unit}
    (h : RunShape env cmd p) : p.result ≠ .error .indexOutOfRange := by
  cases h <;> simp

theorem RunShape.calls_le_one {env : Env} {cmd : Command} {p : Proc Unit}
    (h : RunShape env cmd p) : (remoteCalls p.trace).length ≤ 1 := by
  cases h with
  | usageError => simp [remoteCalls]
  | inputError ev hev =>
    rcases hev with ⟨m, rfl⟩ | ⟨m, rfl⟩ <;> simp [remoteCalls]
  | remoteError c e _ => simp [remoteCalls]
  | success c out _ hout => simp [remoteCalls, hout]

theorem RunShape.remote_failure {env : Env} {cmd : Command} {p : Proc Unit}
    (h : RunShape env cmd p) (c : RemoteCall) (e : GoError)
    (hc : c ∈ remoteCalls p.trace) (he : env.client.errorOf c = some e) :
    p = ⟨[.remote c, .fatalln (env.HttpErrStrip e)], .error (.exit 1)⟩ := by
  cases h with
  | usageError => simp [remoteCalls] at hc
  | inputError ev hev =>
    rcases hev with ⟨m, rfl⟩ | ⟨m, rfl⟩ <;> simp [remoteCalls] at hc
  | remoteError c1 e1 h1 =>
    simp [remoteCalls] at hc
    subst hc
    rw [h1] at he
    injection he with he
    subst he
    rfl
  | success c1 out h1 hout =>
    simp [remoteCalls, hout] at hc
    subst hc
    rw [h1] at he
    cases he

/-! ## Flags that were not supplied keep their registered default -/

theorem Globals.get_set_ne (g g1 : Globals) (v w : Var) (s : String)
    (h : g.set v s = some g1) (hw : w ≠ v) : g1.get w = g.get w := by
  cases v <;> cases w <;>
    first
    | exact absurd rfl hw
    | (simp only [Globals.set, Option.some.injEq] at h; subst h; rfl)
    | (unfold Globals.set at h
       cases hb : ParseBool s with
       | none => simp [hb] at h
       | some b => simp [hb] at h; subst h; rfl)

theorem parseFlags_get (cmd : Subcommand) (w : Var) :
    ∀ (supplied : List (String × String)) (g g1 : Globals),
      parseFlags cmd supplied g = some g1 →
      (∀ nv ∈ supplied, ∀ f, cmd.flags.find? (fun f => f.name == nv.1) = some f → f.var ≠ w) →
      g1.get w = g.get w := by
  intro supplied
  induction supplied with
  | nil =>
    intro g g1 h _
    simp [parseFlags] at h
    rw [h]
  | cons nv rest ih =>
    intro g g1 h hv
    obtain ⟨n, v⟩ := nv
    unfold parseFlags at h
    cases hf : cmd.flags.find? (fun f => f.name == n) with
    | none => simp [hf] at h
    | some f =>
      simp only [hf] at h
      cases hs : g.set f.var v with
      | none => simp [hs] at h
      | some g2 =>
        simp only [hs] at h
        have h1 := ih g2 g1 h (fun nv hnv => hv nv (List.mem_cons_of_mem _ hnv))
        have h2 : f.var ≠ w := hv (n, v) (List.mem_cons_self _ _) f hf
        rw [h1]
        exact Globals.get_set_ne g g2 f.var w v hs (fun hc => h2 hc.symm)

theorem list_flag_name_of_var :
    ∀ f ∈ Subcommand.list.flags, ∀ f1 ∈ Subcommand.list.flags, f.var = f1.var →
      f.name = f1.name := by
  decide

theorem list_unsupplied (supplied : List (String × String)) (g : Globals) (f : Flag)
    (hf : f ∈ Subcommand.list.flags) (hb : boundOptions .list supplied = some g)
    (hn : f.name ∉ supplied.map Prod.fst) : g.get f.var = init.get f.var := by
  refine parseFlags_get .list f.var supplied init g hb ?_
  intro nv hnv f1 hfind hvar
  have hmem : f1 ∈ Subcommand.list.flags := List.mem_of_find?_eq_some hfind
  have hname : f1.name = nv.1 := by
    have := List.find?_some hfind
    simpa using this
  have := list_flag_name_of_var f1 hmem f hf hvar
  apply hn
  rw [← this, hname]
  exact List.mem_map_of_mem _ hnv

theorem Globals.get_set_same (g g1 : Globals) (v : Var) (s : String)
    (hv : v ≠ .snapshotFromCloud) (h : g.set v s = some g1) : g1.get v = s := by
  cases v <;>
    first
    | exact absurd rfl hv
    | (simp only [Globals.set, Option.some.injEq] at h; subst h; rfl)

theorem list_flag_var_of_name :
    ∀ f ∈ Subcommand.list.flags, ∀ f1 ∈ Subcommand.list.flags, f.name = f1.name →
      f.var = f1.var := by
  decide

theorem list_flag_textual : ∀ f ∈ Subcommand.list.flags, f.var ≠ .snapshotFromCloud := by
  decide

theorem lastValue_cons (n v : String) (rest : List (String × String)) (name : String) :
    lastValue ((n, v) :: rest) name =
      match lastValue rest name with
      | some w => some w
      | none => if n = name then some v else none := rfl

theorem parseFlags_list_get (f : Flag) (hf : f ∈ Subcommand.list.flags) :
    ∀ (supplied : List (String × String)) (g g1 : Globals),
      parseFlags .list supplied g = some g1 →
      g1.get f.var = (lastValue supplied f.name).getD (g.get f.var) := by
  intro supplied
  induction supplied with
  | nil =>
    intro g g1 h
    simp [parseFlags] at h
    rw [h]
    rfl
  | cons nv rest ih =>
    intro g g1 h
    obtain ⟨n, v⟩ := nv
    unfold parseFlags at h
    cases hfind : Subcommand.list.flags.find? (fun f => f.name == n) with
    | none => simp [hfind] at h
    | some f1 =>
      simp only [hfind] at h
      cases hs : g.set f1.var v with
      | none => simp [hs] at h
      | some g2 =>
        simp only [hs] at h
        have h1 := ih g2 g1 h
        have hmem : f1 ∈ Subcommand.list.flags := List.mem_of_find?_eq_some hfind
        have hname : f1.name = n := by
          have := List.find?_some hfind
          simpa using this
        rw [h1, lastValue_cons]
        cases hl : lastValue rest f.name with
        | some w => rfl
        | none =>
          by_cases hn : n = f.name
          · have hvar : f1.var = f.var :=
              list_flag_var_of_name f1 hmem f hf (hname.trans hn)
            have hsame := Globals.get_set_same g g2 f1.var v (list_flag_textual f1 hmem) hs
            rw [hvar] at hsame
            simp [hn, hsame]
          · have hvar : f.var ≠ f1.var := by
              intro hc
              exact hn ((list_flag_name_of_var f hf f1 hmem hc).trans hname).symm
            have hkeep := Globals.get_set_ne g g2 f1.var f.var v hs hvar
            simp [hn, hkeep]

/-- C4 (evaluation of the code): for every command line of `list`, the mapping
handed to `ListVolumes` has the same thirteen keys, each carrying the literal
text of its flag (the value supplied last, or the registered default, which is
the empty string for the nine equality filters of the mapping);
`list --sortKey name --sortDir asc --limit 10` gives `"limit" → "10"`,
`"sortKey" → "name"`, `"sortDir" → "asc"`. The tenant filter, whose flag
`--tenantId` is registered and was not supplied, is not present with the
empty string: the mapping has no entry for it, and supplying `--tenantId t`
leaves the mapping unchanged. -/
theorem C4_list_mapping_tenant_key_absent (env : Env) (supplied : List (String × String))
    (t : String) :
    (boundOptions .list supplied).map
          (fun o => remoteCalls (volumeListAction env o []).trace) =
        (boundOptions .list supplied).map
          (fun _ => [RemoteCall.ListVolumes
            [("limit", flagValue .list supplied "limit"),
              ("offset", flagValue .list supplied "offset"),
              ("sortDir", flagValue .list supplied "sortDir"),
              ("sortKey", flagValue .list supplied "sortKey"),
              ("Id", flagValue .list supplied "id"),
              ("Name", flagValue .list supplied "name"),
              ("Description", flagValue .list supplied "description"),
              ("UserId", flagValue .list supplied "userId"),
              ("AvailabilityZone", flagValue .list supplied "availabilityZone"),
              ("Status", flagValue .list supplied "status"),
              ("PoolId", flagValue .list supplied "poolId"),
              ("ProfileId", flagValue .list supplied "profileId"),
              ("GroupId", flagValue .list supplied "groupId")]])
    ∧ (boundOptions .list [("sortKey", "name"), ("sortDir", "asc"), ("limit", "10")]).map
          (fun o => remoteCalls (volumeListAction env o []).trace) =
        some [.ListVolumes
          [("limit", "10"), ("offset", "0"), ("sortDir", "asc"), ("sortKey", "name"),
            ("Id", ""), ("Name", ""), ("Description", ""), ("UserId", ""),
            ("AvailabilityZone", ""), ("Status", ""), ("PoolId", ""), ("ProfileId", ""),
            ("GroupId", "")]]
    ∧ (∃ f ∈ volumeListFlags, f.name = "tenantId" ∧ f.var = .volTenantId ∧ f.defVal = "")
    ∧ List.lookup "TenantId"
          [("limit", "10"), ("offset", "0"), ("sortDir", "asc"), ("sortKey", "name"),
            ("Id", ""), ("Name", ""), ("Description", ""), ("UserId", ""),
            ("AvailabilityZone", ""), ("Status", ""), ("PoolId", ""), ("ProfileId", ""),
            ("GroupId", "")] = none
    ∧ (boundOptions .list
            [("sortKey", "name"), ("sortDir", "asc"), ("limit", "10"), ("tenantId", t)]).map
          (fun o => remoteCalls (volumeListAction env o []).trace) =
        (boundOptions .list [("sortKey", "name"), ("sortDir", "asc"), ("limit", "10")]).map
          (fun o => remoteCalls (volumeListAction env o []).trace) := by
  refine ⟨?_, ?_, ⟨⟨"tenantId", "", .volTenantId, ""⟩, by decide, rfl, rfl, rfl⟩, rfl, ?_⟩
  · cases hb : boundOptions .list supplied with
    | none => rfl
    | some o =>
      have k1 : o.volLimit = flagValue .list supplied "limit" :=
        parseFlags_list_get ⟨"limit", "", .volLimit, "50"⟩ (by decide) supplied init o hb
      have k2 : o.volOffset = flagValue .list supplied "offset" :=
        parseFlags_list_get ⟨"offset", "", .volOffset, "0"⟩ (by decide) supplied init o hb
      have k3 : o.volSortDir = flagValue .list supplied "sortDir" :=
        parseFlags_list_get ⟨"sortDir", "", .volSortDir, "desc"⟩ (by decide) supplied init o hb
      have k4 : o.volSortKey = flagValue .list supplied "sortKey" :=
        parseFlags_list_get ⟨"sortKey", "", .volSortKey, "id"⟩ (by decide) supplied init o hb
      have k5 : o.volId = flagValue .list supplied "id" :=
        parseFlags_list_get ⟨"id", "", .volId, ""⟩ (by decide) supplied init o hb
      have k6 : o.volName = flagValue .list supplied "name" :=
        parseFlags_list_get ⟨"name", "", .volName, ""⟩ (by decide) supplied init o hb
      have k7 : o.volDesp = flagValue .list supplied "description" :=
        parseFlags_list_get ⟨"description", "", .volDesp, ""⟩ (by decide) supplied init o hb
      have k8 : o.volUserId = flagValue .list supplied "userId" :=
        parseFlags_list_get ⟨"userId", "", .volUserId, ""⟩ (by decide) supplied init o hb
      have k9 : o.volAz = flagValue .list supplied "availabilityZone" :=
        parseFlags_list_get ⟨"availabilityZone", "", .volAz, ""⟩ (by decide) supplied init o hb
      have k10 : o.volStatus = flagValue .list supplied "status" :=
        parseFlags_list_get ⟨"status", "", .volStatus, ""⟩ (by decide) supplied init o hb
      have k11 : o.volPoolId = flagValue .list supplied "poolId" :=
        parseFlags_list_get ⟨"poolId", "", .volPoolId, ""⟩ (by decide) supplied init o hb
      have k12 : o.volProfileId = flagValue .list supplied "profileId" :=
        parseFlags_list_get ⟨"profileId", "", .volProfileId, ""⟩ (by decide) supplied init o hb
      have k13 : o.volGroupId = flagValue .list supplied "groupId" :=
        parseFlags_list_get ⟨"groupId", "", .volGroupId, ""⟩ (by decide) supplied init o hb
      rw [Option.map_some', Option.map_some', volumeListAction_calls, k1, k2, k3, k4, k5, k6,
        k7, k8, k9, k10, k11, k12, k13]
  · have hb : boundOptions .list [("sortKey", "name"), ("sortDir", "asc"), ("limit", "10")] =
        some { init with volSortKey := "name", volSortDir := "asc", volLimit := "10" } := rfl
    rw [hb, Option.map_some', volumeListAction_calls]
    rfl
  · have hb : boundOptions .list [("sortKey", "name"), ("sortDir", "asc"), ("limit", "10")] =
        some { init with volSortKey := "name", volSortDir := "asc", volLimit := "10" } := rfl
    have hbt : boundOptions .list
          [("sortKey", "name"), ("sortDir", "asc"), ("limit", "10"), ("tenantId", t)] =
        some { init with volSortKey := "name", volSortDir := "asc", volLimit := "10",
                         volTenantId := t } := rfl
    rw [hb, hbt, Option.map_some', Option.map_some', volumeListAction_calls,
      volumeListAction_calls]

/-- C5 (evaluation of the code): with all ten filter flags of `list` supplied,
the mapping handed to `ListVolumes` carries nine of the values (id, name,
description, user, zone, status, pool, profile, group); the value of
`--tenantId` is in no entry, and `list --tenantId t` sends the same mapping
as `list`. -/
theorem C5_tenant_filter_dropped (env : Env) (a b c t u st pl z pr gr : String) :
    (boundOptions .list
          [("id", a), ("name", b), ("description", c), ("tenantId", t), ("userId", u),
            ("status", st), ("poolId", pl), ("availabilityZone", z), ("profileId", pr),
            ("groupId", gr)]).map
        (fun o => remoteCalls (volumeListAction env o []).trace) =
      some [.ListVolumes
        [("limit", "50"), ("offset", "0"), ("sortDir", "desc"), ("sortKey", "id"),
          ("Id", a), ("Name", b), ("Description", c), ("UserId", u),
          ("AvailabilityZone", z), ("Status", st), ("PoolId", pl), ("ProfileId", pr),
          ("GroupId", gr)]]
    ∧ (boundOptions .list [("tenantId", t)]).map
          (fun o => remoteCalls (volumeListAction env o []).trace) =
        (boundOptions .list []).map
          (fun o => remoteCalls (volumeListAction env o []).trace) := by
  constructor
  · have hb : boundOptions .list
          [("id", a), ("name", b), ("description", c), ("tenantId", t), ("userId", u),
            ("status", st), ("poolId", pl), ("availabilityZone", z), ("profileId", pr),
            ("groupId", gr)] =
        some { init with volId := a, volName := b, volDesp := c, volTenantId := t,
                         volUserId := u, volStatus := st, volPoolId := pl, volAz := z,
                         volProfileId := pr, volGroupId := gr } := rfl
    rw [hb, Option.map_some', volumeListAction_calls]
    rfl
  · have hb : boundOptions .list [("tenantId", t)] = some { init with volTenantId := t } := rfl
    have hb0 : boundOptions .list [] = some init := rfl
    rw [hb, hb0, Option.map_some', Option.map_some', volumeListAction_calls,
      volumeListAction_calls]

/-- C6: for every id and every value of the option variables,
`volumeDeleteAction` makes exactly one remote call, `DeleteVolume`, whose
request has `ProfileId` from `--profile` and every other field at its zero
value; when that call succeeds the run is that call alone, with no projector
invoked and nothing printed, and the handler returns normally. -/
theorem C6_delete_request_silent (env : Env) (g : Globals) (id : String) :
    remoteCalls (volumeDeleteAction env g [id]).trace =
        [.DeleteVolume id
          { ProfileId := g.profileId, Id := "", CreatedAt := "", UpdatedAt := "", Name := "",
            Description := "", Size := 0, AvailabilityZone := "", Status := "", PoolId := "",
            Metadata := [], GroupId := "", SnapshotId := "", SnapshotFromCloud := false,
            MultiAttach := false }]
    ∧ (∀ pf : String,
        (boundOptions .delete [("profile", pf)]).map
          (fun o => remoteCalls (volumeDeleteAction env o [id]).trace) =
        some [.DeleteVolume id { ProfileId := pf }])
    ∧ (env.client.DeleteVolume id { ProfileId := g.profileId } = none →
        volumeDeleteAction env g [id] =
          ⟨[.remote (.DeleteVolume id { ProfileId := g.profileId })], .ok ()⟩
        ∧ projections (volumeDeleteAction env g [id]).trace = []) := by
  refine ⟨volumeDeleteAction_calls env g id, ?_, ?_⟩
  · intro pf
    have hb : boundOptions .delete [("profile", pf)] = some { init with profileId := pf } := rfl
    rw [hb, Option.map_some', volumeDeleteAction_calls]
  · intro he
    rw [volumeDeleteAction_ok env g id he]
    exact ⟨rfl, rfl⟩

theorem C6_delete_request_silent_witness :
    okEnv.client.DeleteVolume "vol-1" { ProfileId := "gold" } = none ∧
    volumeDeleteAction okEnv { profileId := "gold" } ["vol-1"] =
      ⟨[.remote (.DeleteVolume "vol-1" { ProfileId := "gold" })], .ok ()⟩ :=
  ⟨rfl, ((C6_delete_request_silent okEnv { profileId := "gold" } "vol-1").2.2 rfl).1⟩

theorem Run_arity (cmd : Subcommand) (env : Env) (g : Globals) (args : List String)
    (h : args.length ≠ declaredArity cmd.command) :
    cmd.Run env g args = ⟨[.usage cmd.command], .error (.exit 1)⟩ := by
  cases cmd
  · exact volumeCreateAction_arity env g args h
  · exact volumeShowAction_arity env g args h
  · exact volumeListAction_arity env g args h
  · exact volumeDeleteAction_arity env g args h
  · exact volumeUpdateAction_arity env g args h
  · exact volumeExtendAction_arity env g args h

theorem volumeCreateAction_no_usage (env : Env) (g : Globals) (args : List String)
    (hl : args.length = 1) (c : Command) :
    Event.usage c ∉ (volumeCreateAction env g args).trace := by
  obtain ⟨s, rfl⟩ := List.length_eq_one.mp hl
  cases hs : Atoi s with
  | error err => rw [volumeCreateAction_parse env g s err hs]; simp
  | ok n =>
    cases he : (env.client.CreateVolume
        { Name := g.volName, Description := g.volDesp, AvailabilityZone := g.volAz, Size := n,
          ProfileId := g.profileId, PoolId := g.poolId, SnapshotId := g.volSnap,
          SnapshotFromCloud := g.snapshotFromCloud }).2 with
    | none => rw [volumeCreateAction_ok env g s n hs he]; simp
    | some e => rw [volumeCreateAction_err env g s n e hs he]; simp

theorem volumeShowAction_no_usage (env : Env) (g : Globals) (args : List String)
    (hl : args.length = 1) (c : Command) :
    Event.usage c ∉ (volumeShowAction env g args).trace := by
  obtain ⟨id, rfl⟩ := List.length_eq_one.mp hl
  cases he : (env.client.GetVolume id).2 with
  | none => rw [volumeShowAction_ok env g id he]; simp
  | some e => rw [volumeShowAction_err env g id e he]; simp

theorem volumeListAction_no_usage (env : Env) (g : Globals) (args : List String)
    (hl : args.length = 0) (c : Command) :
    Event.usage c ∉ (volumeListAction env g args).trace := by
  obtain rfl := List.length_eq_zero.mp hl
  cases he : (env.client.ListVolumes
      [("limit", g.volLimit), ("offset", g.volOffset), ("sortDir", g.volSortDir),
        ("sortKey", g.volSortKey), ("Id", g.volId), ("Name", g.volName),
        ("Description", g.volDesp), ("UserId", g.volUserId), ("AvailabilityZone", g.volAz),
        ("Status", g.volStatus), ("PoolId", g.volPoolId), ("ProfileId", g.volProfileId),
        ("GroupId", g.volGroupId)]).2 with
  | none => rw [volumeListAction_ok env g he]; simp
  | some e => rw [volumeListAction_err env g e he]; simp

theorem volumeDeleteAction_no_usage (env : Env) (g : Globals) (args : List String)
    (hl : args.length = 1) (c : Command) :
    Event.usage c ∉ (volumeDeleteAction env g args).trace := by
  obtain ⟨id, rfl⟩ := List.length_eq_one.mp hl
  cases he : env.client.DeleteVolume id { ProfileId := g.profileId } with
  | none => rw [volumeDeleteAction_ok env g id he]; simp
  | some e => rw [volumeDeleteAction_err env g id e he]; simp

theorem volumeUpdateAction_no_usage (env : Env) (g : Globals) (args : List String)
    (hl : args.length = 1) (c : Command) :
    Event.usage c ∉ (volumeUpdateAction env g args).trace := by
  obtain ⟨id, rfl⟩ := List.length_eq_one.mp hl
  cases he : (env.client.UpdateVolume id { Name := g.volName, Description := g.volDesp }).2 with
  | none => rw [volumeUpdateAction_ok env g id he]; simp
  | some e => rw [volumeUpdateAction_err env g id e he]; simp

theorem volumeExtendAction_no_usage (env : Env) (g : Globals) (args : List String)
    (hl : args.length = 2) (c : Command) :
    Event.usage c ∉ (volumeExtendAction env g args).trace := by
  obtain ⟨id, s, rfl⟩ := List.length_eq_two.mp hl
  cases hs : Atoi s with
  | error err => rw [volumeExtendAction_parse env g id s err hs]; simp
  | ok n =>
    cases he : (env.client.ExtendVolume id { NewSize := n }).2 with
    | none => rw [volumeExtendAction_ok env g id s n hs he]; simp
    | some e => rw [volumeExtendAction_err env g id s n e hs he]; simp

theorem Run_no_usage (cmd : Subcommand) (env : Env) (g : Globals) (args : List String)
    (h : args.length = declaredArity cmd.command) (c : Command) :
    Event.usage c ∉ (cmd.Run env g args).trace := by
  cases cmd
  · exact volumeCreateAction_no_usage env g args h c
  · exact volumeShowAction_no_usage env g args h c
  · exact volumeListAction_no_usage env g args h c
  · exact volumeDeleteAction_no_usage env g args h c
  · exact volumeUpdateAction_no_usage env g args h c
  · exact volumeExtendAction_no_usage env g args h c

/-- C7: the declared arities are create 1, show 1, list 0, delete 1, update 1,
extend 2; for each subcommand an argument list of any other length yields
the usage error alone (usage text, exit status 1, no remote call), an
argument list of the declared length yields no usage error, and no run of
any handler ends in an index-out-of-range panic. -/
theorem C7_arity_checked_first (cmd : Subcommand) (env : Env) (g : Globals)
    (args : List String) :
    [Subcommand.create, .show, .list, .delete, .update, .extend].map
        (fun c => declaredArity c.command) = [1, 1, 0, 1, 1, 2]
    ∧ (args.length ≠ declaredArity cmd.command →
        cmd.Run env g args = ⟨[.usage cmd.command], .error (.exit 1)⟩
        ∧ remoteCalls (cmd.Run env g args).trace = [])
    ∧ (args.length = declaredArity cmd.command →
        ∀ c, Event.usage c ∉ (cmd.Run env g args).trace)
    ∧ (cmd.Run env g args).result ≠ .error .indexOutOfRange := by
  refine ⟨rfl, ?_, ?_, (Run_shape cmd env g args).no_panic⟩
  · intro h
    rw [Run_arity cmd env g args h]
    exact ⟨rfl, rfl⟩
  · intro h c
    exact Run_no_usage cmd env g args h c

theorem C7_arity_checked_first_witness :
    ["vol-1"].length ≠ declaredArity Subcommand.extend.command ∧
    Subcommand.extend.Run okEnv init ["vol-1"] =
      ⟨[.usage volumeExtendCommand], .error (.exit 1)⟩ ∧
    ["vol-1", "8"].length = declaredArity Subcommand.extend.command ∧
    Event.usage volumeExtendCommand ∉ (Subcommand.extend.Run okEnv init ["vol-1", "8"]).trace :=
  ⟨by decide,
   ((C7_arity_checked_first .extend okEnv init ["vol-1"]).2.1 (by decide)).1,
   by decide,
   (C7_arity_checked_first .extend okEnv init ["vol-1", "8"]).2.2.1 (by decide) _⟩

/-- C8: in a run of any of the six subcommands, if a remote call is made and
the client answers it with an error `e`, the run is exactly that one call
followed by the fatal message `HttpErrStrip e` and ends with exit status 1: no
projector is invoked and no second remote call is made. -/
theorem C8_remote_error_fatal (cmd : Subcommand) (env : Env) (g : Globals)
    (args : List String) (c : RemoteCall) (e : GoError)
    (hc : c ∈ remoteCalls (cmd.Run env g args).trace)
    (he : env.client.errorOf c = some e) :
    cmd.Run env g args = ⟨[.remote c, .fatalln (env.HttpErrStrip e)], .error (.exit 1)⟩
    ∧ projections (cmd.Run env g args).trace = []
    ∧ remoteCalls (cmd.Run env g args).trace = [c] := by
  have h := (Run_shape cmd env g args).remote_failure c e hc he
  rw [h]
  exact ⟨rfl, rfl, rfl⟩

theorem C8_remote_error_fatal_witness :
    Subcommand.create.Run (failingEnv "boom") init ["100"] =
      ⟨[.remote (.CreateVolume { Size := 100 }), .fatalln "boom"], .error (.exit 1)⟩
    ∧ Subcommand.show.Run (failingEnv "boom") init ["vol-1"] =
      ⟨[.remote (.GetVolume "vol-1"), .fatalln "boom"], .error (.exit 1)⟩
    ∧ Subcommand.list.Run (failingEnv "boom") init [] =
      ⟨[.remote (.ListVolumes
          [("limit", "50"), ("offset", "0"), ("sortDir", "desc"), ("sortKey", "id"),
            ("Id", ""), ("Name", ""), ("Description", ""), ("UserId", ""),
            ("AvailabilityZone", ""), ("Status", ""), ("PoolId", ""), ("ProfileId", ""),
            ("GroupId", "")]), .fatalln "boom"], .error (.exit 1)⟩
    ∧ Subcommand.delete.Run (failingEnv "boom") init ["vol-1"] =
      ⟨[.remote (.DeleteVolume "vol-1" {}), .fatalln "boom"], .error (.exit 1)⟩
    ∧ Subcommand.update.Run (failingEnv "boom") init ["vol-1"] =
      ⟨[.remote (.UpdateVolume "vol-1" {}), .fatalln "boom"], .error (.exit 1)⟩
    ∧ Subcommand.extend.Run (failingEnv "boom") init ["vol-1", "8"] =
      ⟨[.remote (.ExtendVolume "vol-1" { NewSize := 8 }), .fatalln "boom"], .error (.exit 1)⟩ :=
  ⟨(C8_remote_error_fatal .create (failingEnv "boom") init ["100"]
      (.CreateVolume { Size := 100 }) "boom" (List.mem_singleton.mpr rfl) rfl).1,
   (C8_remote_error_fatal .show (failingEnv "boom") init ["vol-1"]
      (.GetVolume "vol-1") "boom" (List.mem_singleton.mpr rfl) rfl).1,
   (C8_remote_error_fatal .list (failingEnv "boom") init []
      (.ListVolumes
        [("limit", "50"), ("offset", "0"), ("sortDir", "desc"), ("sortKey", "id"),
          ("Id", ""), ("Name", ""), ("Description", ""), ("UserId", ""),
          ("AvailabilityZone", ""), ("Status", ""), ("PoolId", ""), ("ProfileId", ""),
          ("GroupId", "")]) "boom" (List.mem_singleton.mpr rfl) rfl).1,
   (C8_remote_error_fatal .delete (failingEnv "boom") init ["vol-1"]
      (.DeleteVolume "vol-1" {}) "boom" (List.mem_singleton.mpr rfl) rfl).1,
   (C8_remote_error_fatal .update (failingEnv "boom") init ["vol-1"]
      (.UpdateVolume "vol-1" {}) "boom" (List.mem_singleton.mpr rfl) rfl).1,
   (C8_remote_error_fatal .extend (failingEnv "boom") init ["vol-1", "8"]
      (.ExtendVolume "vol-1" { NewSize := 8 }) "boom" (List.mem_singleton.mpr rfl) rfl).1⟩

theorem renderDict_showFields (r : VolumeSpec) :
    renderDict r showFields volFormatters =
      [("Id", .flat (.str r.Id)), ("CreatedAt", .flat (.str r.CreatedAt)),
        ("UpdatedAt", .flat (.str r.UpdatedAt)), ("Name", .flat (.str r.Name)),
        ("Description", .flat (.str r.Description)), ("Size", .flat (.int r.Size)),
        ("AvailabilityZone", .flat (.str r.AvailabilityZone)),
        ("Status", .flat (.str r.Status)), ("PoolId", .flat (.str r.PoolId)),
        ("ProfileId", .flat (.str r.ProfileId)),
        ("Metadata", .formatted .JsonFormatter (.map r.Metadata)),
        ("GroupId", .flat (.str r.GroupId)), ("SnapshotId", .flat (.str r.SnapshotId)),
        ("MultiAttach", .flat (.bool r.MultiAttach))] := rfl

theorem display_show (env : Env) (g : Globals) (id : String) (r : VolumeSpec)
    (h : env.client.GetVolume id = (some r, none)) :
    display (volumeShowAction env g [id]).trace = [renderDict r showFields volFormatters] := by
  have he : (env.client.GetVolume id).2 = none := by rw [h]
  rw [volumeShowAction_ok env g id he, h]
  rfl

/-- C9: when `GetVolume` returns the record `r`, `show` hands `r` to the
projector with exactly the fourteen names of `showFields`, in that order and
each once, and with `volFormatters`; what the run displays is one record of
fourteen rows, each the value `r` holds in the named field, in that order;
two runs display the same exactly when their records agree on the fourteen
fields, whatever their other fields hold; and the only row rendered through a
formatter (the JSON formatter) is `Metadata`. -/
theorem C9_show_projection (env : Env) (g : Globals) (id : String) (r : VolumeSpec)
    (h : env.client.GetVolume id = (some r, none)) :
    volumeShowAction env g [id] =
        ⟨[.remote (.GetVolume id), .printDict (some r) showFields volFormatters], .ok ()⟩
    ∧ showFields =
        ["Id", "CreatedAt", "UpdatedAt", "Name", "Description", "Size", "AvailabilityZone",
          "Status", "PoolId", "ProfileId", "Metadata", "GroupId", "SnapshotId", "MultiAttach"]
    ∧ showFields.Nodup
    ∧ showFields.length = 14
    ∧ display (volumeShowAction env g [id]).trace =
        [[("Id", .flat (.str r.Id)), ("CreatedAt", .flat (.str r.CreatedAt)),
          ("UpdatedAt", .flat (.str r.UpdatedAt)), ("Name", .flat (.str r.Name)),
          ("Description", .flat (.str r.Description)), ("Size", .flat (.int r.Size)),
          ("AvailabilityZone", .flat (.str r.AvailabilityZone)),
          ("Status", .flat (.str r.Status)), ("PoolId", .flat (.str r.PoolId)),
          ("ProfileId", .flat (.str r.ProfileId)),
          ("Metadata", .formatted .JsonFormatter (.map r.Metadata)),
          ("GroupId", .flat (.str r.GroupId)), ("SnapshotId", .flat (.str r.SnapshotId)),
          ("MultiAttach", .flat (.bool r.MultiAttach))]]
    ∧ (∀ (env1 : Env) (g1 : Globals) (id1 : String) (r1 : VolumeSpec),
        env1.client.GetVolume id1 = (some r1, none) →
        (display (volumeShowAction env g [id]).trace =
            display (volumeShowAction env1 g1 [id1]).trace
          ↔ agreeOnShowFields r r1))
    ∧ (∀ rows ∈ display (volumeShowAction env g [id]).trace,
        rows.map Prod.fst = showFields
        ∧ ∀ (k : String) (cell : Cell), (k, cell) ∈ rows →
          ((∃ v, cell = .formatted .JsonFormatter v) ↔ k = "Metadata")
          ∧ ((∃ v, cell = .flat v) ↔ k ≠ "Metadata"))
    ∧ volFormatters = [("Metadata", .JsonFormatter)] := by
  have he : (env.client.GetVolume id).2 = none := by rw [h]
  have hd := display_show env g id r h
  refine ⟨?_, rfl, by decide, rfl, ?_, ?_, ?_, rfl⟩
  · rw [volumeShowAction_ok env g id he, h]
    rfl
  · rw [hd, renderDict_showFields]
  · intro env1 g1 id1 r1 h1
    rw [hd, display_show env1 g1 id1 r1 h1, renderDict_showFields, renderDict_showFields]
    simp [agreeOnShowFields]
  · intro rows hrows
    rw [hd, List.mem_singleton] at hrows
    subst hrows
    refine ⟨rfl, ?_⟩
    intro k cell hk
    rw [renderDict_showFields] at hk
    simp only [List.mem_cons, Prod.mk.injEq, List.mem_singleton, List.not_mem_nil,
      or_false] at hk
    casesm* _ ∨ _ <;> (casesm* _ ∧ _; subst_vars; simp)

theorem C9_show_projection_witness :
    (showingEnv sampleVolume).client.GetVolume "vol-1" = (some sampleVolume, none)
    ∧ display (volumeShowAction (showingEnv sampleVolume) init ["vol-1"]).trace =
        [[("Id", .flat (.str "vol-1")), ("CreatedAt", .flat (.str "2017-07-10T14:36:58")),
          ("UpdatedAt", .flat (.str "2017-07-11T09:00:00")), ("Name", .flat (.str "data")),
          ("Description", .flat (.str "scratch space")), ("Size", .flat (.int 8)),
          ("AvailabilityZone", .flat (.str "az1")), ("Status", .flat (.str "available")),
          ("PoolId", .flat (.str "pool-7")), ("ProfileId", .flat (.str "gold")),
          ("Metadata", .formatted .JsonFormatter (.map [("tier", "hot")])),
          ("GroupId", .flat (.str "grp-2")), ("SnapshotId", .flat (.str "snap-3")),
          ("MultiAttach", .flat (.bool true))]]
    ∧ (display (volumeShowAction (showingEnv sampleVolume) init ["vol-1"]).trace =
        display (volumeShowAction
          (showingEnv { sampleVolume with SnapshotFromCloud := false }) init ["vol-1"]).trace)
    ∧ ¬ (display (volumeShowAction (showingEnv sampleVolume) init ["vol-1"]).trace =
        display (volumeShowAction
          (showingEnv { sampleVolume with Name := "other" }) init ["vol-1"]).trace) :=
  ⟨rfl,
   (C9_show_projection (showingEnv sampleVolume) init "vol-1" sampleVolume rfl).2.2.2.2.1,
   ((C9_show_projection (showingEnv sampleVolume) init "vol-1" sampleVolume rfl).2.2.2.2.2.1
      (showingEnv { sampleVolume with SnapshotFromCloud := false }) init "vol-1"
      { sampleVolume with SnapshotFromCloud := false } rfl).mpr
     (by simp [agreeOnShowFields, sampleVolume]),
   fun hc =>
     absurd
       (((C9_show_projection (showingEnv sampleVolume) init "vol-1" sampleVolume
            rfl).2.2.2.2.2.1
          (showingEnv { sampleVolume with Name := "other" }) init "vol-1"
          { sampleVolume with Name := "other" } rfl).mp hc)
       (by simp [agreeOnShowFields, sampleVolume])⟩

theorem volumeCreateAction_call_inv (env : Env) (g : Globals) (args : List String)
    (vol : VolumeSpec)
    (h : RemoteCall.CreateVolume vol ∈ remoteCalls (volumeCreateAction env g args).trace) :
    ∃ s, args = [s] ∧ Atoi s = .ok vol.Size := by
  by_cases hl : args.length = 1
  · obtain ⟨s, rfl⟩ := List.length_eq_one.mp hl
    cases hs : Atoi s with
    | error err =>
      rw [volumeCreateAction_parse env g s err hs] at h
      simp [remoteCalls] at h
    | ok n =>
      rw [volumeCreateAction_calls env g s n hs] at h
      simp only [List.mem_singleton, RemoteCall.CreateVolume.injEq] at h
      subst h
      exact ⟨s, rfl, hs⟩
  · rw [volumeCreateAction_arity env g args hl] at h
    simp [remoteCalls] at h

theorem volumeExtendAction_call_inv (env : Env) (g : Globals) (args : List String)
    (id : String) (body : ExtendVolumeSpec)
    (h : RemoteCall.ExtendVolume id body ∈ remoteCalls (volumeExtendAction env g args).trace) :
    ∃ s, args = [id, s] ∧ Atoi s = .ok body.NewSize := by
  by_cases hl : args.length = 2
  · obtain ⟨a, s, rfl⟩ := List.length_eq_two.mp hl
    cases hs : Atoi s with
    | error err =>
      rw [volumeExtendAction_parse env g a s err hs] at h
      simp [remoteCalls] at h
    | ok n =>
      rw [volumeExtendAction_calls env g a s n hs] at h
      simp only [List.mem_singleton, RemoteCall.ExtendVolume.injEq] at h
      obtain ⟨h1, h2⟩ := h
      subst h1 h2
      exact ⟨s, rfl, hs⟩
  · rw [volumeExtendAction_arity env g args hl] at h
    simp [remoteCalls] at h

/-- C10 (counterexample): `create 0`, `create -5` and `extend vol-1 0` reach the
remote client with `Size = 0`, `Size = -5` and `NewSize = 0`, so neither the
request of `create` nor the body of `extend` is always positive. -/
theorem C10_nonpositive_size_reaches_client :
    remoteCalls (volumeCreateAction okEnv init ["0"]).trace = [.CreateVolume { Size := 0 }]
    ∧ remoteCalls (volumeCreateAction okEnv init ["-5"]).trace =
        [.CreateVolume { Size := -5 }]
    ∧ remoteCalls (volumeExtendAction okEnv init ["vol-1", "0"]).trace =
        [.ExtendVolume "vol-1" { NewSize := 0 }]
    ∧ ¬ (∀ (env : Env) (g : Globals) (args : List String) (vol : VolumeSpec),
          RemoteCall.CreateVolume vol ∈ remoteCalls (volumeCreateAction env g args).trace →
          0 < vol.Size)
    ∧ ¬ (∀ (env : Env) (g : Globals) (args : List String) (id : String)
          (body : ExtendVolumeSpec),
          RemoteCall.ExtendVolume id body ∈ remoteCalls (volumeExtendAction env g args).trace →
          0 < body.NewSize) := by
  refine ⟨rfl, rfl, rfl, ?_, ?_⟩
  · intro hall
    have h := hall okEnv init ["-5"] { Size := -5 } (List.mem_singleton.mpr rfl)
    exact absurd h (by decide)
  · intro hall
    have h := hall okEnv init ["vol-1", "0"] "vol-1" { NewSize := 0 } (List.mem_singleton.mpr rfl)
    exact absurd h (by decide)

/-- C10 (amended): whenever `create` calls `CreateVolume`, the request's `Size`
is the integer its single size argument parses to, and whenever `extend` calls
`ExtendVolume`, the body's `NewSize` is the integer its new-size argument
parses to, a value of Go `int` of either sign; conversely every size argument
that parses as an integer, positive or not, reaches the remote client with
that value. -/
theorem C10_size_is_parsed_integer (env : Env) (g : Globals) (args : List String) :
    (∀ vol : VolumeSpec,
        RemoteCall.CreateVolume vol ∈ remoteCalls (volumeCreateAction env g args).trace →
        ∃ s, args = [s] ∧ Atoi s = .ok vol.Size ∧ minInt ≤ vol.Size ∧ vol.Size ≤ maxInt)
    ∧ (∀ (id : String) (body : ExtendVolumeSpec),
        RemoteCall.ExtendVolume id body ∈ remoteCalls (volumeExtendAction env g args).trace →
        ∃ s, args = [id, s] ∧ Atoi s = .ok body.NewSize
          ∧ minInt ≤ body.NewSize ∧ body.NewSize ≤ maxInt)
    ∧ (∀ (s : String) (n : Int), Atoi s = .ok n →
        (∃ vol, remoteCalls (volumeCreateAction env g [s]).trace = [.CreateVolume vol]
          ∧ vol.Size = n)
        ∧ (∀ id : String, remoteCalls (volumeExtendAction env g [id, s]).trace =
            [.ExtendVolume id { NewSize := n }])) := by
  refine ⟨?_, ?_, ?_⟩
  · intro vol h
    obtain ⟨s, hs, hp⟩ := volumeCreateAction_call_inv env g args vol h
    exact ⟨s, hs, hp, Atoi_range s _ hp⟩
  · intro id body h
    obtain ⟨s, hs, hp⟩ := volumeExtendAction_call_inv env g args id body h
    exact ⟨s, hs, hp, Atoi_range s _ hp⟩
  · intro s n hs
    exact ⟨⟨_, volumeCreateAction_calls env g s n hs, rfl⟩,
      fun id => volumeExtendAction_calls env g id s n hs⟩

theorem C10_size_is_parsed_integer_witness :
    RemoteCall.CreateVolume { Size := 100 } ∈
      remoteCalls (volumeCreateAction okEnv init ["100"]).trace
    ∧ (∃ s, ["100"] = [s] ∧ Atoi s = .ok 100 ∧ minInt ≤ (100 : Int) ∧ (100 : Int) ≤ maxInt)
    ∧ Atoi "-5" = .ok (-5)
    ∧ remoteCalls (volumeExtendAction okEnv init ["vol-1", "-5"]).trace =
        [.ExtendVolume "vol-1" { NewSize := -5 }] :=
  ⟨List.mem_singleton.mpr rfl,
   (C10_size_is_parsed_integer okEnv init ["100"]).1 { Size := 100 }
     (List.mem_singleton.mpr rfl),
   rfl,
   ((C10_size_is_parsed_integer okEnv init []).2.2 "-5" (-5) rfl).2 "vol-1"⟩

end Osdsctl
